import Mathlib

set_option maxRecDepth 2000

/-!
Verification development for the `button_library` repository: a polled
finite-state machine turning a raw GPIO level into button events
(press, long-press, repeat, release, multi-click).

The embedding below follows the validated (status-returning) generation of
the library (`button.c`/`button.h` with `BTN_operate_status`), compiled with
the configuration shipped in `button_cfg.h`:
`BTN_DOUBLE_DEBOUNCING = 1`, `BTN_RELEASE_AFTER_REPEAT = 1`,
`BTN_MULTIPLE_CLICK = 1`, `BTN_MULTIPLE_CLICK_COMBINED_TO_MUCH_AS_TRIPLE = 1`,
`BTN_DEFAULT_INIT = 1`, and the non-used-callback feature absent (its macro is
not defined in `button_cfg.h`, so the `#if BTN_NON_USED_CALLBACK` blocks drop
out).  The state-machine core of the older generation in the repository is
identical to this one under the same configuration, except where noted in the
doc comments.

Modelling decisions (each mirrors a concrete piece of C):
* `BTN_TIME_t` is `volatile uint32_t`; tick values and timer fields are `Nat`
  and every elapsed-time computation `now - last` is `sub32`, unsigned
  32-bit wraparound subtraction.  One evaluation call reads one tick value.
* The tick source (`BTN_tick`, a registered pointer) is `Option Nat`:
  `none` is an unregistered (NULL) pointer; dereferencing it is modelled by
  the surrounding `Option` monad producing `none` (the call does not return).
* A callback slot (function pointer) is a `Bool`: `true` means a handler is
  registered (non-NULL).  Invoking a registered handler appends the
  corresponding `BtnEvent` to the event list returned by the call.
* The GPIO pin level is the `Bool` argument `pin` (`true` = electrically
  high); `ReadState` returns `BTN_SET`/`BTN_RESET` from it exactly as the
  register read does.
* Bit-fields: `ClickCounter` is a 6-bit field, so its `++` wraps modulo 64;
  the two 1-bit flags hold 0 or 1.
* The C conditionals of the form `a == b ? x : y` keep their actual C
  parse `(a == b) ? x : y` (the `?:` binds weaker than `==`); the helpers
  `cEq`, `cNeq`, `cTernary` encode int-valued C comparisons verbatim.
-/

/-- BTN_SET: logic level returned by `ReadState` for a high pin. -/
def BTN_SET : Nat := 1

/-- BTN_RESET: logic level returned by `ReadState` for a low pin. -/
def BTN_RESET : Nat := 0

/-- Modulus of the 32-bit tick type `BTN_TIME_t`. -/
def M32 : Nat := 4294967296

/-- Wraparound-safe unsigned 32-bit subtraction `a - b`, the meaning of every
`BTN_GET_TICK - Key->...Tick` expression in the source. -/
def sub32 (a b : Nat) : Nat := (a + (M32 - b % M32)) % M32

/-- C integer equality `a == b` (evaluates to 1 or 0). -/
def cEq (a b : Nat) : Nat := if a = b then 1 else 0

/-- C integer inequality `a != b` (evaluates to 1 or 0). -/
def cNeq (a b : Nat) : Nat := if a = b then 0 else 1

/-- C conditional expression `c ? x : y` on an int condition. -/
def cTernary (c x y : Nat) : Nat := if c ≠ 0 then x else y

/-- BUTTON_STATE / ButtonState_t enumeration (configuration enables both
`DEBOUNCE_RELEASE` and `RELEASE_AFTER_REPEAT`). -/
inductive ButtonState_t where
  | IDLE
  | DEBOUNCE
  | PRESSED
  | REPEAT
  | RELEASE
  | DEBOUNCE_RELEASE
  | RELEASE_AFTER_REPEAT
deriving DecidableEq, Repr

/-- ReverseLogicGpio_t: NON_REVERSE = 0, REVERSE = 1 (kept as the C int). -/
def NON_REVERSE : Nat := 0

/-- REVERSE member of ReverseLogicGpio_t. -/
def REVERSE : Nat := 1

/-- MultipleClickMode_t enumeration. -/
inductive MultipleClickMode_t where
  | BTN_MULTIPLE_CLICK_OFF
  | BTN_MULTIPLE_CLICK_NORMAL_MODE
  | BTN_MULTIPLE_CLICK_COMBINED_MODE
deriving DecidableEq, Repr

/-- BTN_operate_status: the two-valued status returned by every public entry
point of the validated generation. -/
inductive BTN_operate_status where
  | BTN_OK
  | BTN_ERROR
deriving DecidableEq, Repr

/-- Button events, one per callback slot; an event in the output list of an
evaluation call records one synchronous invocation of that callback. -/
inductive BtnEvent where
  | pressed
  | longPressed
  | repeated
  | released
  | releasedAfterRepeat
  | doubleClick
  | tripleClick
deriving DecidableEq, Repr

/-- button_t with the `button_cfg.h` configuration applied
(double debouncing, release-after-repeat and multiple click compiled in,
non-used callback compiled out).  Callback slots are `Bool` (registered or
NULL), tick-valued fields are `Nat` read modulo 2^32 by `sub32`. -/
structure Button where
  State : ButtonState_t
  GpioPort : Nat
  GpioPin : Nat
  LastTick : Nat
  TimerDebounce : Nat
  TimerLongPressed : Nat
  TimerRepeat : Nat
  ReverseLogic : Nat
  NumberBtn : Nat
  StateBeforeRelease : ButtonState_t
  TimerSecondDebounce : Nat
  LastTickSecondDebounce : Nat
  ButtonPressed : Bool
  ButtonLongPressed : Bool
  ButtonRepeat : Bool
  ButtonRelease : Bool
  ButtonReleaseAfterRepeat : Bool
  ButtonDoubleClick : Bool
  ButtonTripleClick : Bool
  MultipleClickMode : MultipleClickMode_t
  ClickCounter : Nat
  ClickCounterCycle : Nat
  CombinedModeRepeatPressEx : Nat
  TimerBetweenClick : Nat
  LastClickTick : Nat
deriving DecidableEq, Repr

/-- ReadState: the register read `(GPIOx->IDR & GPIO_Pin) != 0 ? BTN_SET :
BTN_RESET`, with the masked bit abstracted into the `pin` level. -/
def ReadState (pin : Bool) : Nat := if pin then BTN_SET else BTN_RESET

/-- Emission of one callback: a registered (non-NULL) slot produces its
event, an unregistered slot is a no-op. -/
def emit (slot : Bool) (e : BtnEvent) : List BtnEvent := if slot then [e] else []

/-- MultipleClickDebounce: debounce-phase multi-click resolver, called on a
confirmed press.  OFF: record `LastTick`, fire press.  NORMAL: record
`LastTick`, fire press, and when the inter-click gap is within
`TimerBetweenClick` increment the 6-bit `ClickCounter` (a value above 3 resets
it to 0 with no further callback; value 2 fires double-click, value 3 fires
triple-click).  COMBINED (only when `ClickCounterCycle` is 0): set the cycle
flag, and either increment the counter (clamping above 3 to 3, the
`BTN_MULTIPLE_CLICK_COMBINED_TO_MUCH_AS_TRIPLE` policy) when the gap is within
the window or restart it at 1; no callback fires here. -/
def MultipleClickDebounce (tickSrc : Option Nat) (Key : Button) :
    Option (Button × List BtnEvent) :=
  if Key.MultipleClickMode = .BTN_MULTIPLE_CLICK_OFF then do
    let t ← tickSrc
    some ({ Key with LastTick := t }, emit Key.ButtonPressed .pressed)
  else if Key.MultipleClickMode = .BTN_MULTIPLE_CLICK_NORMAL_MODE then do
    let t ← tickSrc
    let Key := { Key with LastTick := t }
    let ev := emit Key.ButtonPressed .pressed
    let t2 ← tickSrc
    if sub32 t2 Key.LastClickTick ≤ Key.TimerBetweenClick then
      let c := (Key.ClickCounter + 1) % 64
      if c > 3 then
        some ({ Key with ClickCounter := 0 }, ev)
      else if c = 2 then
        some ({ Key with ClickCounter := c }, ev ++ emit Key.ButtonDoubleClick .doubleClick)
      else if c = 3 then
        some ({ Key with ClickCounter := c }, ev ++ emit Key.ButtonTripleClick .tripleClick)
      else
        some ({ Key with ClickCounter := c }, ev)
    else
      some ({ Key with ClickCounter := 0 }, ev)
  else if Key.MultipleClickMode = .BTN_MULTIPLE_CLICK_COMBINED_MODE ∧
          Key.ClickCounterCycle = 0 then do
    let Key := { Key with ClickCounterCycle := 1 }
    let t ← tickSrc
    if sub32 t Key.LastClickTick ≤ Key.TimerBetweenClick then
      let c := (Key.ClickCounter + 1) % 64
      if c > 3 then
        some ({ Key with ClickCounter := 3 }, [])
      else
        some ({ Key with ClickCounter := c }, [])
    else
      some ({ Key with ClickCounter := 1 }, [])
  else
    some (Key, [])

/-- multipleClikIdle: idle-phase multi-click resolver.  A no-op outside
COMBINED mode; otherwise clears the repeat-press and cycle flags and, once
the inter-click gap exceeds `TimerBetweenClick`, fires the callback selected
by the final `ClickCounter` (1 = press, 2 = double, 3 = triple) and resets
the counter. -/
def multipleClikIdle (tickSrc : Option Nat) (Key : Button) :
    Option (Button × List BtnEvent) :=
  if Key.MultipleClickMode ≠ .BTN_MULTIPLE_CLICK_COMBINED_MODE then
    some (Key, [])
  else do
    let Key := { Key with CombinedModeRepeatPressEx := 0, ClickCounterCycle := 0 }
    let t ← tickSrc
    if sub32 t Key.LastClickTick > Key.TimerBetweenClick then
      let ev :=
        if Key.ClickCounter = 1 then emit Key.ButtonPressed .pressed
        else if Key.ClickCounter = 2 then emit Key.ButtonDoubleClick .doubleClick
        else if Key.ClickCounter = 3 then emit Key.ButtonTripleClick .tripleClick
        else []
      some ({ Key with ClickCounter := 0 }, ev)
    else
      some (Key, [])

/-- multipleClikRepeat: repeat-phase multi-click resolver (no tick read).
Fires the press callback once per repeat excursion, guarded by
`CombinedModeRepeatPressEx`, and always resets `ClickCounter`. -/
def multipleClikRepeat (Key : Button) : Button × List BtnEvent :=
  if Key.ButtonPressed ∧ Key.CombinedModeRepeatPressEx = 0 then
    ({ Key with CombinedModeRepeatPressEx := 1, ClickCounter := 0 }, [.pressed])
  else
    ({ Key with ClickCounter := 0 }, [])

/-- ButtonIdleRoutine: runs the idle-phase resolver, then transitions to
`DEBOUNCE` recording `LastTick = now` when the pin is detected pressed.  The
press-detect condition is the C expression
`ReadState(...) == (Key->ReverseLogic==0) ? BTN_RESET : BTN_SET` with its
actual precedence `(ReadState(...) == (ReverseLogic==0)) ? BTN_RESET :
BTN_SET`.  The non-used-callback block is compiled out. -/
def ButtonIdleRoutine (tickSrc : Option Nat) (Key : Button) (pin : Bool) :
    Option (Button × List BtnEvent) := do
  let (Key, ev) ← multipleClikIdle tickSrc Key
  if cTernary (cEq (ReadState pin) (cEq Key.ReverseLogic 0)) BTN_RESET BTN_SET ≠ 0 then
    let t ← tickSrc
    some ({ Key with LastTick := t, State := .DEBOUNCE }, ev)
  else
    some (Key, ev)

/-- ButtonDebounceRoutine: once `now - LastTick ≥ TimerDebounce`, a still
pressed pin is a confirmed press: run `MultipleClickDebounce`, go to
`PRESSED` and record `LastClickTick = now`; a released pin goes back to
`IDLE` with no callback.  Before the window elapses nothing happens. -/
def ButtonDebounceRoutine (tickSrc : Option Nat) (Key : Button) (pin : Bool) :
    Option (Button × List BtnEvent) := do
  let t ← tickSrc
  if sub32 t Key.LastTick ≥ Key.TimerDebounce then
    if cTernary (cEq (ReadState pin) (cEq Key.ReverseLogic 0)) BTN_RESET BTN_SET ≠ 0 then do
      let (Key, ev) ← MultipleClickDebounce tickSrc Key
      let t2 ← tickSrc
      some ({ Key with State := .PRESSED, LastClickTick := t2 }, ev)
    else
      some ({ Key with State := .IDLE }, [])
  else
    some (Key, [])

/-- ButtonPressedRoutine: a released pin starts the release-debounce phase
(`BTN_DOUBLE_DEBOUNCING` is enabled): remember `StateBeforeRelease`, go to
`DEBOUNCE_RELEASE`, record `LastTickSecondDebounce = now`.  Otherwise once
`now - LastTick ≥ TimerLongPressed` fire the long-press callback, record
`LastTick = now` and go to `REPEAT`.  The release condition is the C
expression `(ReadState(...) == (ReverseLogic==0)) ? BTN_SET : BTN_RESET`. -/
def ButtonPressedRoutine (tickSrc : Option Nat) (Key : Button) (pin : Bool) :
    Option (Button × List BtnEvent) := do
  if cTernary (cEq (ReadState pin) (cEq Key.ReverseLogic 0)) BTN_SET BTN_RESET ≠ 0 then
    let t ← tickSrc
    some ({ Key with StateBeforeRelease := Key.State, State := .DEBOUNCE_RELEASE,
                     LastTickSecondDebounce := t }, [])
  else do
    let t ← tickSrc
    if sub32 t Key.LastTick ≥ Key.TimerLongPressed then
      some ({ Key with State := .REPEAT, LastTick := t },
            emit Key.ButtonLongPressed .longPressed)
    else
      some (Key, [])

/-- ButtonRepeatRoutine: runs the repeat-phase resolver first (regardless of
the multi-click mode), then either starts the release-debounce phase on a
released pin, or fires the repeat callback each time `now - LastTick ≥
TimerRepeat`, recording `LastTick = now`. -/
def ButtonRepeatRoutine (tickSrc : Option Nat) (Key : Button) (pin : Bool) :
    Option (Button × List BtnEvent) := do
  let (Key, ev) := multipleClikRepeat Key
  if cTernary (cEq (ReadState pin) (cEq Key.ReverseLogic 0)) BTN_SET BTN_RESET ≠ 0 then
    let t ← tickSrc
    some ({ Key with StateBeforeRelease := Key.State, State := .DEBOUNCE_RELEASE,
                     LastTickSecondDebounce := t }, ev)
  else do
    let t ← tickSrc
    if sub32 t Key.LastTick ≥ Key.TimerRepeat then
      some ({ Key with LastTick := t }, ev ++ emit Key.ButtonRepeat .repeated)
    else
      some (Key, ev)

/-- ButtonDebounceReleaseRoutine: once `now - LastTickSecondDebounce ≥
TimerSecondDebounce`, a re-asserted pin (a bounce, not a real release) goes
back to `StateBeforeRelease`; a still-released pin goes to `RELEASE` or
`RELEASE_AFTER_REPEAT` according to `StateBeforeRelease` (the
`BTN_RELEASE_AFTER_REPEAT` build).  No callback fires in this state.  The
re-assert condition is the C expression
`(ReadState(...) != (ReverseLogic==0)) ? BTN_SET : BTN_RESET`. -/
def ButtonDebounceReleaseRoutine (tickSrc : Option Nat) (Key : Button) (pin : Bool) :
    Option (Button × List BtnEvent) := do
  let t ← tickSrc
  if sub32 t Key.LastTickSecondDebounce ≥ Key.TimerSecondDebounce then
    if cTernary (cNeq (ReadState pin) (cEq Key.ReverseLogic 0)) BTN_SET BTN_RESET ≠ 0 then
      some ({ Key with State := Key.StateBeforeRelease }, [])
    else
      if Key.StateBeforeRelease = .PRESSED then
        some ({ Key with State := .RELEASE }, [])
      else if Key.StateBeforeRelease = .REPEAT then
        some ({ Key with State := .RELEASE_AFTER_REPEAT }, [])
      else
        some (Key, [])
  else
    some (Key, [])

/-- ButtonReleaseRoutine: fire the release callback (if registered) and go
back to `IDLE`. -/
def ButtonReleaseRoutine (Key : Button) : Button × List BtnEvent :=
  ({ Key with State := .IDLE }, emit Key.ButtonRelease .released)

/-- ButtonReleaseAfterRepeatRoutine: fire the release-after-repeat callback
(if registered) and go back to `IDLE`. -/
def ButtonReleaseAfterRepeatRoutine (Key : Button) : Button × List BtnEvent :=
  ({ Key with State := .IDLE }, emit Key.ButtonReleaseAfterRepeat .releasedAfterRepeat)

/-- ButtonTask of the validated generation: returns `BTN_ERROR` for a NULL
instance pointer without touching anything, otherwise dispatches on the
current state and returns `BTN_OK`.  A `none` overall result models an
evaluation that dereferences the unregistered (NULL) tick pointer and never
returns a status. -/
def ButtonTask (tickSrc : Option Nat) (key : Option Button) (pin : Bool) :
    Option (BTN_operate_status × Option Button × List BtnEvent) :=
  match key with
  | none => some (.BTN_ERROR, none, [])
  | some k =>
    (match k.State with
     | .IDLE => ButtonIdleRoutine tickSrc k pin
     | .DEBOUNCE => ButtonDebounceRoutine tickSrc k pin
     | .PRESSED => ButtonPressedRoutine tickSrc k pin
     | .REPEAT => ButtonRepeatRoutine tickSrc k pin
     | .DEBOUNCE_RELEASE => ButtonDebounceReleaseRoutine tickSrc k pin
     | .RELEASE => some (ButtonReleaseRoutine k)
     | .RELEASE_AFTER_REPEAT => some (ButtonReleaseAfterRepeatRoutine k)
    ).map (fun (p : Button × List BtnEvent) => (.BTN_OK, some p.1, p.2))

/-- BTN_tick_variable_register: registering a NULL variable pointer returns
`BTN_ERROR` and leaves the tick source unchanged; a valid pointer is stored
and `BTN_OK` is returned.  The state threaded through is the global
`BTN_tick` pointer (the registered tick source). -/
def BTN_tick_variable_register (Variable : Option Nat) (BTN_tick : Option Nat) :
    BTN_operate_status × Option Nat :=
  match Variable with
  | none => (.BTN_ERROR, BTN_tick)
  | some v => (.BTN_OK, some v)

/-- The all-zero-bytes instance written by `ButtonResetInstance`: enum fields
are their 0 members, pointers NULL (slots `false`), integers 0. -/
def zeroButton : Button where
  State := .IDLE
  GpioPort := 0
  GpioPin := 0
  LastTick := 0
  TimerDebounce := 0
  TimerLongPressed := 0
  TimerRepeat := 0
  ReverseLogic := 0
  NumberBtn := 0
  StateBeforeRelease := .IDLE
  TimerSecondDebounce := 0
  LastTickSecondDebounce := 0
  ButtonPressed := false
  ButtonLongPressed := false
  ButtonRepeat := false
  ButtonRelease := false
  ButtonReleaseAfterRepeat := false
  ButtonDoubleClick := false
  ButtonTripleClick := false
  MultipleClickMode := .BTN_MULTIPLE_CLICK_OFF
  ClickCounter := 0
  ClickCounterCycle := 0
  CombinedModeRepeatPressEx := 0
  TimerBetweenClick := 0
  LastClickTick := 0

/-- ButtonResetInstance: writes every byte of the instance to zero,
independent of its previous contents. -/
def ButtonResetInstance (_Key : Button) : Button := zeroButton

/-- BTN_DEFAULT_TIME_DEBOUNCE from the configuration header. -/
def BTN_DEFAULT_TIME_DEBOUNCE : Nat := 50

/-- BTN_DEFAULT_TIME_LONG_PRESS from the configuration header. -/
def BTN_DEFAULT_TIME_LONG_PRESS : Nat := 500

/-- BTN_DEFAULT_TIME_REPEAT from the configuration header. -/
def BTN_DEFAULT_TIME_REPEAT : Nat := 300

/-- ButtonInitKey of the validated generation: `BTN_ERROR` when the instance
or port pointer is NULL (no write happens), otherwise zero the instance via
`ButtonResetInstance` and assign state, pin identity, the three primary
timings, polarity, identifier, the release-debounce timer (copied from the
debounce timing) and the OFF multi-click mode. -/
def ButtonInitKey (key : Option Button) (GpioPort : Option Nat) (GpioPin : Nat)
    (TimerDebounce TimerLongPressed TimerRepeat : Nat)
    (ReverseLogic : Nat) (Number : Nat) : BTN_operate_status × Option Button :=
  match key, GpioPort with
  | none, _ => (.BTN_ERROR, none)
  | some k, none => (.BTN_ERROR, some k)
  | some k, some p =>
    (.BTN_OK, some { ButtonResetInstance k with
      State := .IDLE
      GpioPort := p
      GpioPin := GpioPin
      TimerDebounce := TimerDebounce
      TimerLongPressed := TimerLongPressed
      TimerRepeat := TimerRepeat
      ReverseLogic := ReverseLogic
      NumberBtn := Number
      TimerSecondDebounce := TimerDebounce
      MultipleClickMode := .BTN_MULTIPLE_CLICK_OFF })

/-- ButtonInitKeyDefault: as `ButtonInitKey` but with the compiled-in default
timings 50 / 500 / 300 ms. -/
def ButtonInitKeyDefault (key : Option Button) (GpioPort : Option Nat)
    (GpioPin : Nat) (ReverseLogic : Nat) (Number : Nat) :
    BTN_operate_status × Option Button :=
  match key, GpioPort with
  | none, _ => (.BTN_ERROR, none)
  | some k, none => (.BTN_ERROR, some k)
  | some k, some p =>
    (.BTN_OK, some { ButtonResetInstance k with
      State := .IDLE
      GpioPort := p
      GpioPin := GpioPin
      TimerDebounce := BTN_DEFAULT_TIME_DEBOUNCE
      TimerLongPressed := BTN_DEFAULT_TIME_LONG_PRESS
      TimerRepeat := BTN_DEFAULT_TIME_REPEAT
      ReverseLogic := ReverseLogic
      NumberBtn := Number
      TimerSecondDebounce := BTN_DEFAULT_TIME_DEBOUNCE
      MultipleClickMode := .BTN_MULTIPLE_CLICK_OFF })

/-- ButtonSetMultipleClick: `BTN_ERROR` on a NULL instance, otherwise store
the multi-click mode and the inter-click window. -/
def ButtonSetMultipleClick (key : Option Button) (MultipleClickMode : MultipleClickMode_t)
    (TimerBetweenClick : Nat) : BTN_operate_status × Option Button :=
  match key with
  | none => (.BTN_ERROR, none)
  | some k =>
    (.BTN_OK, some { k with MultipleClickMode := MultipleClickMode,
                            TimerBetweenClick := TimerBetweenClick })

/-- ButtonRegisterPressCallback: `BTN_ERROR` on a NULL instance, otherwise
store the handler (a `true` slot registers, a `false` slot is NULL). -/
def ButtonRegisterPressCallback (key : Option Button) (Callback : Bool) :
    BTN_operate_status × Option Button :=
  match key with
  | none => (.BTN_ERROR, none)
  | some k => (.BTN_OK, some { k with ButtonPressed := Callback })

/-- ButtonSetDebounceTime: `BTN_ERROR` on a NULL instance, otherwise store
the debounce window. -/
def ButtonSetDebounceTime (key : Option Button) (Miliseconds : Nat) :
    BTN_operate_status × Option Button :=
  match key with
  | none => (.BTN_ERROR, none)
  | some k => (.BTN_OK, some { k with TimerDebounce := Miliseconds })

/-- Modelled from the spec: "asserted" means physically pressed, computed as
`level == (polarity == non-reverse ? LOW : HIGH)` (LOW is `BTN_RESET`, HIGH is
`BTN_SET`).  This definition follows the spec's words and is compared against
the C conditions below. -/
def assertedSpec (ReverseLogic : Nat) (pin : Bool) : Prop :=
  ReadState pin = (if ReverseLogic = NON_REVERSE then BTN_RESET else BTN_SET)

instance (rl : Nat) (pin : Bool) : Decidable (assertedSpec rl pin) := by
  unfold assertedSpec; infer_instance

/-- The press-detect condition of `ButtonIdleRoutine` / `ButtonDebounceRoutine`
holds exactly when the pin is asserted in the spec's sense. -/
theorem pressDetect_iff_asserted (rl : Nat) (pin : Bool) :
    (cTernary (cEq (ReadState pin) (cEq rl 0)) BTN_RESET BTN_SET ≠ 0) ↔
      assertedSpec rl pin := by
  by_cases h : rl = 0 <;> cases pin <;>
    simp [assertedSpec, cTernary, cEq, ReadState, BTN_SET, BTN_RESET, NON_REVERSE, h]

/-- The release-detect condition of `ButtonPressedRoutine` /
`ButtonRepeatRoutine` holds exactly when the pin is not asserted. -/
theorem releaseDetect_iff_not_asserted (rl : Nat) (pin : Bool) :
    (cTernary (cEq (ReadState pin) (cEq rl 0)) BTN_SET BTN_RESET ≠ 0) ↔
      ¬ assertedSpec rl pin := by
  by_cases h : rl = 0 <;> cases pin <;>
    simp [assertedSpec, cTernary, cEq, ReadState, BTN_SET, BTN_RESET, NON_REVERSE, h]

/-- The re-assert condition of `ButtonDebounceReleaseRoutine` holds exactly
when the pin is asserted. -/
theorem reassertDetect_iff_asserted (rl : Nat) (pin : Bool) :
    (cTernary (cNeq (ReadState pin) (cEq rl 0)) BTN_SET BTN_RESET ≠ 0) ↔
      assertedSpec rl pin := by
  by_cases h : rl = 0 <;> cases pin <;>
    simp [assertedSpec, cTernary, cEq, cNeq, ReadState, BTN_SET, BTN_RESET, NON_REVERSE, h]

/-- Replacing the polarity field of an instance. -/
def withRL (r : Nat) (k : Button) : Button := { k with ReverseLogic := r }


/-- Projection lemmas: `withRL` only changes the polarity field. -/
@[simp] theorem withRL_ReverseLogic (r : Nat) (k : Button) : (withRL r k).ReverseLogic = r := rfl

@[simp] theorem withRL_State (r : Nat) (k : Button) : (withRL r k).State = k.State := rfl

@[simp] theorem withRL_GpioPort (r : Nat) (k : Button) : (withRL r k).GpioPort = k.GpioPort := rfl

@[simp] theorem withRL_GpioPin (r : Nat) (k : Button) : (withRL r k).GpioPin = k.GpioPin := rfl

@[simp] theorem withRL_LastTick (r : Nat) (k : Button) : (withRL r k).LastTick = k.LastTick := rfl

@[simp] theorem withRL_TimerDebounce (r : Nat) (k : Button) : (withRL r k).TimerDebounce = k.TimerDebounce := rfl

@[simp] theorem withRL_TimerLongPressed (r : Nat) (k : Button) : (withRL r k).TimerLongPressed = k.TimerLongPressed := rfl

@[simp] theorem withRL_TimerRepeat (r : Nat) (k : Button) : (withRL r k).TimerRepeat = k.TimerRepeat := rfl

@[simp] theorem withRL_NumberBtn (r : Nat) (k : Button) : (withRL r k).NumberBtn = k.NumberBtn := rfl

@[simp] theorem withRL_StateBeforeRelease (r : Nat) (k : Button) : (withRL r k).StateBeforeRelease = k.StateBeforeRelease := rfl

@[simp] theorem withRL_TimerSecondDebounce (r : Nat) (k : Button) : (withRL r k).TimerSecondDebounce = k.TimerSecondDebounce := rfl

@[simp] theorem withRL_LastTickSecondDebounce (r : Nat) (k : Button) : (withRL r k).LastTickSecondDebounce = k.LastTickSecondDebounce := rfl

@[simp] theorem withRL_ButtonPressed (r : Nat) (k : Button) : (withRL r k).ButtonPressed = k.ButtonPressed := rfl

@[simp] theorem withRL_ButtonLongPressed (r : Nat) (k : Button) : (withRL r k).ButtonLongPressed = k.ButtonLongPressed := rfl

@[simp] theorem withRL_ButtonRepeat (r : Nat) (k : Button) : (withRL r k).ButtonRepeat = k.ButtonRepeat := rfl

@[simp] theorem withRL_ButtonRelease (r : Nat) (k : Button) : (withRL r k).ButtonRelease = k.ButtonRelease := rfl

@[simp] theorem withRL_ButtonReleaseAfterRepeat (r : Nat) (k : Button) : (withRL r k).ButtonReleaseAfterRepeat = k.ButtonReleaseAfterRepeat := rfl

@[simp] theorem withRL_ButtonDoubleClick (r : Nat) (k : Button) : (withRL r k).ButtonDoubleClick = k.ButtonDoubleClick := rfl

@[simp] theorem withRL_ButtonTripleClick (r : Nat) (k : Button) : (withRL r k).ButtonTripleClick = k.ButtonTripleClick := rfl

@[simp] theorem withRL_MultipleClickMode (r : Nat) (k : Button) : (withRL r k).MultipleClickMode = k.MultipleClickMode := rfl

@[simp] theorem withRL_ClickCounter (r : Nat) (k : Button) : (withRL r k).ClickCounter = k.ClickCounter := rfl

@[simp] theorem withRL_ClickCounterCycle (r : Nat) (k : Button) : (withRL r k).ClickCounterCycle = k.ClickCounterCycle := rfl

@[simp] theorem withRL_CombinedModeRepeatPressEx (r : Nat) (k : Button) : (withRL r k).CombinedModeRepeatPressEx = k.CombinedModeRepeatPressEx := rfl

@[simp] theorem withRL_TimerBetweenClick (r : Nat) (k : Button) : (withRL r k).TimerBetweenClick = k.TimerBetweenClick := rfl

@[simp] theorem withRL_LastClickTick (r : Nat) (k : Button) : (withRL r k).LastClickTick = k.LastClickTick := rfl

theorem MultipleClickDebounce_withRL (r : Nat) (tickSrc : Option Nat) (k : Button) :
    MultipleClickDebounce tickSrc (withRL r k) =
      (MultipleClickDebounce tickSrc k).map (fun p => (withRL r p.1, p.2)) := by
  rcases tickSrc with _ | t <;>
    simp only [MultipleClickDebounce, withRL] <;> split_ifs <;>
    (try simp_all [Option.bind]) <;> split_ifs <;> simp_all

theorem multipleClikIdle_withRL (r : Nat) (tickSrc : Option Nat) (k : Button) :
    multipleClikIdle tickSrc (withRL r k) =
      (multipleClikIdle tickSrc k).map (fun p => (withRL r p.1, p.2)) := by
  rcases tickSrc with _ | t <;>
    simp only [multipleClikIdle, withRL] <;> split_ifs <;>
    (try simp_all [Option.bind]) <;> split_ifs <;> simp_all

theorem multipleClikRepeat_withRL (r : Nat) (k : Button) :
    multipleClikRepeat (withRL r k) =
      (withRL r (multipleClikRepeat k).1, (multipleClikRepeat k).2) := by
  simp only [multipleClikRepeat, withRL] <;> split_ifs <;> simp_all

theorem ButtonIdleRoutine_reverse (tickSrc : Option Nat) (k : Button) (pin : Bool) :
    ButtonIdleRoutine tickSrc (withRL REVERSE k) pin =
      (ButtonIdleRoutine tickSrc (withRL NON_REVERSE k) (!pin)).map
        (fun p => (withRL REVERSE p.1, p.2)) := by
  simp only [ButtonIdleRoutine, multipleClikIdle_withRL, REVERSE, NON_REVERSE]
  rcases h : multipleClikIdle tickSrc k with _ | ⟨k2, ev⟩
  · simp
  · rcases tickSrc with _ | t <;> cases pin <;>
      simp [Option.bind, cTernary, cEq, ReadState, BTN_SET, BTN_RESET] <;> rfl

theorem ButtonDebounceRoutine_reverse (tickSrc : Option Nat) (k : Button) (pin : Bool) :
    ButtonDebounceRoutine tickSrc (withRL REVERSE k) pin =
      (ButtonDebounceRoutine tickSrc (withRL NON_REVERSE k) (!pin)).map
        (fun p => (withRL REVERSE p.1, p.2)) := by
  simp only [ButtonDebounceRoutine, REVERSE, NON_REVERSE]
  rcases tickSrc with _ | t
  · simp [Option.bind]
  · simp only [Option.bind, MultipleClickDebounce_withRL, withRL_LastTick,
               withRL_TimerDebounce, withRL_ReverseLogic]
    by_cases hd : sub32 t k.LastTick ≥ k.TimerDebounce
    · rcases h : MultipleClickDebounce (some t) k with _ | ⟨k2, ev⟩ <;>
        cases pin <;>
        simp [hd, h, Option.bind, cTernary, cEq, ReadState, BTN_SET, BTN_RESET] <;> rfl
    · cases pin <;> simp [hd, cTernary, cEq, ReadState, BTN_SET, BTN_RESET] <;> rfl

theorem ButtonPressedRoutine_reverse (tickSrc : Option Nat) (k : Button) (pin : Bool) :
    ButtonPressedRoutine tickSrc (withRL REVERSE k) pin =
      (ButtonPressedRoutine tickSrc (withRL NON_REVERSE k) (!pin)).map
        (fun p => (withRL REVERSE p.1, p.2)) := by
  simp only [ButtonPressedRoutine, REVERSE, NON_REVERSE]
  rcases tickSrc with _ | t <;> cases pin <;>
    simp_all [Option.bind, withRL, cTernary, cEq, ReadState, BTN_SET, BTN_RESET] <;>
    (try (split_ifs <;> simp_all))

theorem ButtonRepeatRoutine_reverse (tickSrc : Option Nat) (k : Button) (pin : Bool) :
    ButtonRepeatRoutine tickSrc (withRL REVERSE k) pin =
      (ButtonRepeatRoutine tickSrc (withRL NON_REVERSE k) (!pin)).map
        (fun p => (withRL REVERSE p.1, p.2)) := by
  simp only [ButtonRepeatRoutine, multipleClikRepeat_withRL, REVERSE, NON_REVERSE]
  rcases tickSrc with _ | t <;> cases pin <;>
    simp_all [Option.bind, withRL, cTernary, cEq, ReadState, BTN_SET, BTN_RESET,
              multipleClikRepeat] <;>
    split_ifs <;> simp_all

theorem ButtonDebounceReleaseRoutine_reverse (tickSrc : Option Nat) (k : Button) (pin : Bool) :
    ButtonDebounceReleaseRoutine tickSrc (withRL REVERSE k) pin =
      (ButtonDebounceReleaseRoutine tickSrc (withRL NON_REVERSE k) (!pin)).map
        (fun p => (withRL REVERSE p.1, p.2)) := by
  simp only [ButtonDebounceReleaseRoutine, REVERSE, NON_REVERSE]
  rcases tickSrc with _ | t <;> cases pin <;>
    simp_all [Option.bind, withRL, cTernary, cEq, cNeq, ReadState, BTN_SET, BTN_RESET] <;>
    split_ifs <;> simp_all

/-- C4: for every tick source, instance and pin level, an instance configured
with reverse polarity produces exactly the same status, callback sequence and
state trajectory under one evaluation call as the same instance configured
non-reverse and driven by the inverted raw pin level (the resulting instances
agree on every field except the polarity setting itself); and every transition
predicate of the machine depends on the pin only through "asserted" in the
spec's sense, `level == (polarity==non-reverse ? LOW : HIGH)`: the
press-detect conditions of the Idle and Debounce routines hold iff the pin is
asserted, the release conditions of the Pressed and Repeat routines hold iff
it is not asserted, and the re-assert condition of the DebounceRelease
routine holds iff it is asserted. -/
theorem C4_reverse_polarity :
    (∀ (tickSrc : Option Nat) (k : Button) (pin : Bool),
      ButtonTask tickSrc (some (withRL REVERSE k)) pin =
        (ButtonTask tickSrc (some (withRL NON_REVERSE k)) (!pin)).map
          (fun r => (r.1, r.2.1.map (withRL REVERSE), r.2.2))) ∧
    (∀ (rl : Nat) (pin : Bool),
      ((cTernary (cEq (ReadState pin) (cEq rl 0)) BTN_RESET BTN_SET ≠ 0) ↔
        assertedSpec rl pin) ∧
      ((cTernary (cEq (ReadState pin) (cEq rl 0)) BTN_SET BTN_RESET ≠ 0) ↔
        ¬ assertedSpec rl pin) ∧
      ((cTernary (cNeq (ReadState pin) (cEq rl 0)) BTN_SET BTN_RESET ≠ 0) ↔
        assertedSpec rl pin)) := by
  constructor
  · intro tickSrc k pin
    cases hs : k.State <;>
      simp only [ButtonTask, withRL_State, hs]
    case IDLE =>
      rw [ButtonIdleRoutine_reverse]
      rcases ButtonIdleRoutine tickSrc (withRL NON_REVERSE k) (!pin) with _ | ⟨k2, ev⟩ <;> simp
    case DEBOUNCE =>
      rw [ButtonDebounceRoutine_reverse]
      rcases ButtonDebounceRoutine tickSrc (withRL NON_REVERSE k) (!pin) with _ | ⟨k2, ev⟩ <;> simp
    case PRESSED =>
      rw [ButtonPressedRoutine_reverse]
      rcases ButtonPressedRoutine tickSrc (withRL NON_REVERSE k) (!pin) with _ | ⟨k2, ev⟩ <;> simp
    case REPEAT =>
      rw [ButtonRepeatRoutine_reverse]
      rcases ButtonRepeatRoutine tickSrc (withRL NON_REVERSE k) (!pin) with _ | ⟨k2, ev⟩ <;> simp
    case DEBOUNCE_RELEASE =>
      rw [ButtonDebounceReleaseRoutine_reverse]
      rcases ButtonDebounceReleaseRoutine tickSrc (withRL NON_REVERSE k) (!pin) with _ | ⟨k2, ev⟩ <;> simp
    case RELEASE =>
      simp [ButtonReleaseRoutine] <;> rfl
    case RELEASE_AFTER_REPEAT =>
      simp [ButtonReleaseAfterRepeatRoutine] <;> rfl
  · intro rl pin
    exact ⟨pressDetect_iff_asserted rl pin, releaseDetect_iff_not_asserted rl pin,
           reassertDetect_iff_asserted rl pin⟩

/-- Confirmed-press processing: the branch of `ButtonDebounceRoutine` taken
once the debounce window has elapsed with the pin still asserted — run
`MultipleClickDebounce`, transition to `PRESSED` and record
`LastClickTick = now`. -/
def confirmedClick (k : Button) (t : Nat) : Option (Button × List BtnEvent) :=
  (MultipleClickDebounce (some t) k).map
    (fun p => ({ p.1 with State := .PRESSED, LastClickTick := t }, p.2))

/-- A Debounce-state evaluation whose window has elapsed with the pin
asserted is exactly `confirmedClick`. -/
theorem ButtonTask_debounce_confirm (k : Button) (t : Nat) (pin : Bool)
    (hs : k.State = .DEBOUNCE)
    (hd : sub32 t k.LastTick ≥ k.TimerDebounce)
    (hA : assertedSpec k.ReverseLogic pin) :
    ButtonTask (some t) (some k) pin =
      (confirmedClick k t).map (fun p => (.BTN_OK, some p.1, p.2)) := by
  have hcond := (pressDetect_iff_asserted k.ReverseLogic pin).mpr hA
  simp only [ButtonTask, hs, ButtonDebounceRoutine, confirmedClick]
  rcases MultipleClickDebounce (some t) k with _ | ⟨k2, ev⟩ <;>
    simp [hd, hcond]

/-- C1: in normal multi-click mode, for a sequence of confirmed presses each
spaced at most `TimerBetweenClick` from the previous recorded click, starting
with a zero click counter: every confirmed press fires the press callback;
the second press (counter value 2) additionally fires the double-click
callback exactly once; the third press (counter value 3) additionally fires
the triple-click callback exactly once; the first press (counter value 1)
fires no multi-click callback; and a fourth rapid press resets the click
counter to 0 and fires no multi-click callback.  The last conjunct ties the
per-press operation to the evaluation entry point: a Debounce-state
`ButtonTask` call whose window elapsed with the pin asserted performs exactly
this operation. -/
theorem C1_normal_mode_multi_click (k : Button) (t1 t2 t3 t4 : Nat)
    (hm : k.MultipleClickMode = .BTN_MULTIPLE_CLICK_NORMAL_MODE)
    (hc : k.ClickCounter = 0)
    (hp : k.ButtonPressed = true)
    (hdc : k.ButtonDoubleClick = true)
    (htc : k.ButtonTripleClick = true)
    (h1 : sub32 t1 k.LastClickTick ≤ k.TimerBetweenClick)
    (h2 : sub32 t2 t1 ≤ k.TimerBetweenClick)
    (h3 : sub32 t3 t2 ≤ k.TimerBetweenClick)
    (h4 : sub32 t4 t3 ≤ k.TimerBetweenClick) :
    ∃ k1 k2 k3 k4 : Button,
      confirmedClick k t1 = some (k1, [.pressed]) ∧ k1.ClickCounter = 1 ∧
      confirmedClick k1 t2 = some (k2, [.pressed, .doubleClick]) ∧ k2.ClickCounter = 2 ∧
      confirmedClick k2 t3 = some (k3, [.pressed, .tripleClick]) ∧ k3.ClickCounter = 3 ∧
      confirmedClick k3 t4 = some (k4, [.pressed]) ∧ k4.ClickCounter = 0 ∧
      (∀ pin, k.State = .DEBOUNCE → sub32 t1 k.LastTick ≥ k.TimerDebounce →
        assertedSpec k.ReverseLogic pin →
        ButtonTask (some t1) (some k) pin = some (.BTN_OK, some k1, [.pressed])) := by
  refine ⟨{ k with State := .PRESSED, LastTick := t1, ClickCounter := 1, LastClickTick := t1 },
          { k with State := .PRESSED, LastTick := t2, ClickCounter := 2, LastClickTick := t2 },
          { k with State := .PRESSED, LastTick := t3, ClickCounter := 3, LastClickTick := t3 },
          { k with State := .PRESSED, LastTick := t4, ClickCounter := 0, LastClickTick := t4 },
          ?_, rfl, ?_, rfl, ?_, rfl, ?_, rfl, ?_⟩
  · simp [confirmedClick, MultipleClickDebounce, hm, hc, hp, h1, emit]
  · simp [confirmedClick, MultipleClickDebounce, hm, hp, hdc, h2, emit]
  · simp [confirmedClick, MultipleClickDebounce, hm, hp, htc, h3, emit]
  · simp [confirmedClick, MultipleClickDebounce, hm, hp, h4, emit]
  · intro pin hs hd hA
    rw [ButtonTask_debounce_confirm k t1 pin hs hd hA]
    simp [confirmedClick, MultipleClickDebounce, hm, hc, hp, h1, emit]

/-- Concrete normal-mode instance for exercising the multi-click theorem. -/
def c1Btn : Button :=
  { zeroButton with
    State := .DEBOUNCE
    TimerDebounce := 50
    TimerBetweenClick := 300
    MultipleClickMode := .BTN_MULTIPLE_CLICK_NORMAL_MODE
    ButtonPressed := true
    ButtonDoubleClick := true
    ButtonTripleClick := true }

/-- Witness for C1 at clicks 100, 200, 300, 400 ms with a 300 ms window. -/
theorem C1_normal_mode_multi_click_witness :
    ∃ k1 k2 k3 k4 : Button,
      confirmedClick c1Btn 100 = some (k1, [.pressed]) ∧ k1.ClickCounter = 1 ∧
      confirmedClick k1 200 = some (k2, [.pressed, .doubleClick]) ∧ k2.ClickCounter = 2 ∧
      confirmedClick k2 300 = some (k3, [.pressed, .tripleClick]) ∧ k3.ClickCounter = 3 ∧
      confirmedClick k3 400 = some (k4, [.pressed]) ∧ k4.ClickCounter = 0 ∧
      (∀ pin, c1Btn.State = .DEBOUNCE → sub32 100 c1Btn.LastTick ≥ c1Btn.TimerDebounce →
        assertedSpec c1Btn.ReverseLogic pin →
        ButtonTask (some 100) (some c1Btn) pin = some (.BTN_OK, some k1, [.pressed])) :=
  C1_normal_mode_multi_click c1Btn 100 200 300 400 rfl rfl rfl rfl rfl
    (by decide) (by decide) (by decide) (by decide)

/-- Clearing of the two combined-mode guard flags performed on every
Idle-state evaluation by `multipleClikIdle`. -/
def clearFlags (k : Button) : Button :=
  { k with CombinedModeRepeatPressEx := 0, ClickCounterCycle := 0 }

/-- A sequence of Idle-state invocations of the idle-phase resolver, with the
events they fire accumulated in order. -/
def runClikIdle (k : Button) (us : List Nat) : Option (Button × List BtnEvent) :=
  us.foldlM
    (fun p u => (multipleClikIdle (some u) p.1).map (fun q => (q.1, p.2 ++ q.2)))
    (k, [])

theorem multipleClikIdle_within (k : Button) (u : Nat)
    (hm : k.MultipleClickMode = .BTN_MULTIPLE_CLICK_COMBINED_MODE)
    (hw : sub32 u k.LastClickTick ≤ k.TimerBetweenClick) :
    multipleClikIdle (some u) k = some (clearFlags k, []) := by
  have hng : ¬ (sub32 u k.LastClickTick > k.TimerBetweenClick) := not_lt.mpr hw
  simp [multipleClikIdle, hm, hng, clearFlags]

theorem runClikIdle_within (us : List Nat) (k : Button)
    (hm : k.MultipleClickMode = .BTN_MULTIPLE_CLICK_COMBINED_MODE)
    (hw : ∀ u ∈ us, sub32 u k.LastClickTick ≤ k.TimerBetweenClick) :
    runClikIdle k us = some ((if us.isEmpty then k else clearFlags k), []) := by
  induction us generalizing k with
  | nil => simp [runClikIdle]
  | cons u tl ih =>
    have h1 : multipleClikIdle (some u) k = some (clearFlags k, []) :=
      multipleClikIdle_within k u hm (hw u (List.mem_cons_self u tl))
    have h2 : runClikIdle (clearFlags k) tl =
        some ((if tl.isEmpty then clearFlags k else clearFlags (clearFlags k)), []) :=
      ih (clearFlags k) hm (fun v hv => hw v (List.mem_cons_of_mem u hv))
    have h3 : clearFlags (clearFlags k) = clearFlags k := rfl
    rw [h3, ite_self] at h2
    simp only [runClikIdle, List.foldlM_cons] at h2 ⊢
    rw [h1]
    simp [h2]

/-- C2: in combined multi-click mode, a sequence of three confirmed clicks
each within `TimerBetweenClick` of the previous one — with at least one
Idle-state evaluation between consecutive clicks, all within the inter-click
window — fires no callback at all at the clicks or at the intermediate
Idle-state evaluations (in particular no press and no double-click callback
for the intermediate clicks), and the first Idle-state evaluation after the
inter-click gap is exceeded fires exactly one callback, the triple-click
callback, and resets the counter.  The final conjunct ties this to the
evaluation entry point: a `ButtonTask` call on the instance sitting in `Idle`
with the pin released returns OK and fires exactly the triple-click
callback. -/
theorem C2_combined_mode_multi_click (k : Button) (t1 t2 t3 t4 : Nat)
    (us1 us2 us3 : List Nat)
    (hm : k.MultipleClickMode = .BTN_MULTIPLE_CLICK_COMBINED_MODE)
    (hcy : k.ClickCounterCycle = 0)
    (hc : k.ClickCounter = 0)
    (htc : k.ButtonTripleClick = true)
    (hw1 : ∀ u ∈ us1, sub32 u t1 ≤ k.TimerBetweenClick) (hne1 : us1 ≠ [])
    (h2 : sub32 t2 t1 ≤ k.TimerBetweenClick)
    (hw2 : ∀ u ∈ us2, sub32 u t2 ≤ k.TimerBetweenClick) (hne2 : us2 ≠ [])
    (h3 : sub32 t3 t2 ≤ k.TimerBetweenClick)
    (hw3 : ∀ u ∈ us3, sub32 u t3 ≤ k.TimerBetweenClick)
    (h4 : sub32 t4 t3 > k.TimerBetweenClick) :
    ∃ k1 k1i k2 k2i k3 k3i k4 : Button,
      confirmedClick k t1 = some (k1, []) ∧
      runClikIdle k1 us1 = some (k1i, []) ∧
      confirmedClick k1i t2 = some (k2, []) ∧
      runClikIdle k2 us2 = some (k2i, []) ∧
      confirmedClick k2i t3 = some (k3, []) ∧
      runClikIdle k3 us3 = some (k3i, []) ∧
      k3i.ClickCounter = 3 ∧
      multipleClikIdle (some t4) k3i = some (k4, [.tripleClick]) ∧
      k4.ClickCounter = 0 ∧
      (∀ pin, ¬ assertedSpec k.ReverseLogic pin →
        ButtonTask (some t4) (some { k3i with State := .IDLE }) pin =
          some (.BTN_OK, some { k4 with State := .IDLE }, [.tripleClick])) := by
  have hE1 : us1.isEmpty = false := by
    rcases us1 with _ | _ <;> simp_all
  have hE2 : us2.isEmpty = false := by
    rcases us2 with _ | _ <;> simp_all
  refine ⟨{ k with State := .PRESSED, ClickCounterCycle := 1, ClickCounter := 1, LastClickTick := t1 }, { k with State := .PRESSED, ClickCounterCycle := 0, CombinedModeRepeatPressEx := 0, ClickCounter := 1, LastClickTick := t1 }, { k with State := .PRESSED, ClickCounterCycle := 1, CombinedModeRepeatPressEx := 0, ClickCounter := 2, LastClickTick := t2 }, { k with State := .PRESSED, ClickCounterCycle := 0, CombinedModeRepeatPressEx := 0, ClickCounter := 2, LastClickTick := t2 }, { k with State := .PRESSED, ClickCounterCycle := 1, CombinedModeRepeatPressEx := 0, ClickCounter := 3, LastClickTick := t3 }, (if us3.isEmpty then { k with State := .PRESSED, ClickCounterCycle := 1, CombinedModeRepeatPressEx := 0, ClickCounter := 3, LastClickTick := t3 } else clearFlags { k with State := .PRESSED, ClickCounterCycle := 1, CombinedModeRepeatPressEx := 0, ClickCounter := 3, LastClickTick := t3 }), { k with State := .PRESSED, ClickCounterCycle := 0, CombinedModeRepeatPressEx := 0, ClickCounter := 0, LastClickTick := t3 }, ?_, ?_, ?_, ?_, ?_, ?_, ?_, ?_, ?_, ?_⟩
  · simp [confirmedClick, MultipleClickDebounce, hm, hcy, hc]
  · have r1 := runClikIdle_within us1 { k with State := .PRESSED, ClickCounterCycle := 1, ClickCounter := 1, LastClickTick := t1 } hm hw1
    rw [hE1] at r1
    simpa [clearFlags] using r1
  · simp [confirmedClick, MultipleClickDebounce, hm, h2]
  · have r2 := runClikIdle_within us2 { k with State := .PRESSED, ClickCounterCycle := 1, CombinedModeRepeatPressEx := 0, ClickCounter := 2, LastClickTick := t2 } hm hw2
    rw [hE2] at r2
    simpa [clearFlags] using r2
  · simp [confirmedClick, MultipleClickDebounce, hm, h3]
  · exact runClikIdle_within us3 { k with State := .PRESSED, ClickCounterCycle := 1, CombinedModeRepeatPressEx := 0, ClickCounter := 3, LastClickTick := t3 } hm hw3
  · split <;> rfl
  · split <;> simp [multipleClikIdle, hm, h4, htc, clearFlags, emit]
  · rfl
  · intro pin hnA
    have hcond : ¬ (cTernary (cEq (ReadState pin) (cEq k.ReverseLogic 0))
        BTN_RESET BTN_SET ≠ 0) :=
      fun hcond => hnA ((pressDetect_iff_asserted k.ReverseLogic pin).mp hcond)
    split <;>
      simp [ButtonTask, ButtonIdleRoutine, multipleClikIdle, hm, h4, htc, clearFlags,
            emit, hcond]

/-- Concrete combined-mode instance for exercising the combined multi-click
theorem. -/
def c2Btn : Button :=
  { zeroButton with
    TimerBetweenClick := 300
    MultipleClickMode := .BTN_MULTIPLE_CLICK_COMBINED_MODE
    ButtonPressed := true
    ButtonDoubleClick := true
    ButtonTripleClick := true }

/-- Witness for C2 at clicks 100, 200, 300 ms, idle evaluations at 150, 250,
350 ms, and the resolving idle evaluation at 601 ms with a 300 ms window. -/
theorem C2_combined_mode_multi_click_witness :
    ∃ k1 k1i k2 k2i k3 k3i k4 : Button,
      confirmedClick c2Btn 100 = some (k1, []) ∧
      runClikIdle k1 [150] = some (k1i, []) ∧
      confirmedClick k1i 200 = some (k2, []) ∧
      runClikIdle k2 [250] = some (k2i, []) ∧
      confirmedClick k2i 300 = some (k3, []) ∧
      runClikIdle k3 [350] = some (k3i, []) ∧
      k3i.ClickCounter = 3 ∧
      multipleClikIdle (some 601) k3i = some (k4, [.tripleClick]) ∧
      k4.ClickCounter = 0 ∧
      (∀ pin, ¬ assertedSpec c2Btn.ReverseLogic pin →
        ButtonTask (some 601) (some { k3i with State := .IDLE }) pin =
          some (.BTN_OK, some { k4 with State := .IDLE }, [.tripleClick])) :=
  C2_combined_mode_multi_click c2Btn 100 200 300 601 [150] [250] [350]
    rfl rfl rfl rfl (by decide) (by decide) (by decide) (by decide) (by decide)
    (by decide) (by decide) (by decide)

theorem MultipleClickDebounce_some (t : Nat) (k : Button) :
    ∃ p, MultipleClickDebounce (some t) k = some p := by
  unfold MultipleClickDebounce
  split_ifs <;> simp [Option.bind] <;> split_ifs <;> simp

theorem multipleClikIdle_some (t : Nat) (k : Button) :
    ∃ p, multipleClikIdle (some t) k = some p := by
  unfold multipleClikIdle
  split_ifs <;> simp [Option.bind] <;> split_ifs <;> simp

theorem ButtonIdleRoutine_some (t : Nat) (k : Button) (pin : Bool) :
    ∃ p, ButtonIdleRoutine (some t) k pin = some p := by
  obtain ⟨⟨k2, ev⟩, h⟩ := multipleClikIdle_some t k
  unfold ButtonIdleRoutine
  rw [h]
  simp [Option.bind]
  split_ifs <;> simp

theorem ButtonDebounceRoutine_some (t : Nat) (k : Button) (pin : Bool) :
    ∃ p, ButtonDebounceRoutine (some t) k pin = some p := by
  obtain ⟨⟨k2, ev⟩, h⟩ := MultipleClickDebounce_some t k
  unfold ButtonDebounceRoutine
  simp [Option.bind, h]
  split_ifs <;> simp

theorem ButtonPressedRoutine_some (t : Nat) (k : Button) (pin : Bool) :
    ∃ p, ButtonPressedRoutine (some t) k pin = some p := by
  unfold ButtonPressedRoutine
  simp [Option.bind]
  split_ifs <;> simp

theorem ButtonRepeatRoutine_some (t : Nat) (k : Button) (pin : Bool) :
    ∃ p, ButtonRepeatRoutine (some t) k pin = some p := by
  unfold ButtonRepeatRoutine
  simp [Option.bind]
  split_ifs <;> simp <;> exact ⟨(multipleClikRepeat k).1, (multipleClikRepeat k).2, rfl⟩

theorem ButtonDebounceReleaseRoutine_some (t : Nat) (k : Button) (pin : Bool) :
    ∃ p, ButtonDebounceReleaseRoutine (some t) k pin = some p := by
  unfold ButtonDebounceReleaseRoutine
  simp [Option.bind]
  split_ifs <;> simp

/-- A ButtonTask call with a registered tick source and a non-NULL instance
always returns the OK status, an updated instance, and a finite event list. -/
theorem ButtonTask_total (t : Nat) (k : Button) (pin : Bool) :
    ∃ k2 ev, ButtonTask (some t) (some k) pin = some (.BTN_OK, some k2, ev) := by
  cases hs : k.State <;> simp only [ButtonTask, hs]
  case IDLE =>
    obtain ⟨⟨k2, ev⟩, h⟩ := ButtonIdleRoutine_some t k pin
    exact ⟨k2, ev, by rw [h]; rfl⟩
  case DEBOUNCE =>
    obtain ⟨⟨k2, ev⟩, h⟩ := ButtonDebounceRoutine_some t k pin
    exact ⟨k2, ev, by rw [h]; rfl⟩
  case PRESSED =>
    obtain ⟨⟨k2, ev⟩, h⟩ := ButtonPressedRoutine_some t k pin
    exact ⟨k2, ev, by rw [h]; rfl⟩
  case REPEAT =>
    obtain ⟨⟨k2, ev⟩, h⟩ := ButtonRepeatRoutine_some t k pin
    exact ⟨k2, ev, by rw [h]; rfl⟩
  case DEBOUNCE_RELEASE =>
    obtain ⟨⟨k2, ev⟩, h⟩ := ButtonDebounceReleaseRoutine_some t k pin
    exact ⟨k2, ev, by rw [h]; rfl⟩
  case RELEASE =>
    exact ⟨(ButtonReleaseRoutine k).1, (ButtonReleaseRoutine k).2, rfl⟩
  case RELEASE_AFTER_REPEAT =>
    exact ⟨(ButtonReleaseAfterRepeatRoutine k).1, (ButtonReleaseAfterRepeatRoutine k).2, rfl⟩

/-- Concrete instance sitting in the Debounce state, used to exhibit the
behavior of an evaluation call with an unregistered tick source. -/
def c3Btn : Button :=
  { zeroButton with State := .DEBOUNCE, TimerDebounce := 50, ButtonPressed := true }

/-- Counterexample to C3: an evaluation call on a valid instance with a
mis-registered (NULL) tick source does not yield the Error status — it
dereferences the unregistered tick pointer and returns no status at all
(modelled as `none`), unlike the claimed safe `Error` no-op. -/
theorem C3_counterexample_unregistered_tick :
    ButtonTask none (some c3Btn) false = none ∧
    (ButtonTask none (some c3Btn) false).isSome = false := by
  constructor <;> rfl

/-- C3 (amended): the entry points return the two-valued status and return
Error exactly when a pointer argument they check is NULL: a NULL instance
pointer makes the evaluation call return Error with no state change and no
callback; registering a NULL tick variable returns Error and leaves the tick
source unchanged, while a valid registration stores it and returns OK; the
initialization, configuration and registration entry points return Error on a
NULL instance (or port) pointer and OK otherwise; and an evaluation call with
valid handles always returns OK.  However the evaluation call does not
validate the tick source at the point of use: with an unregistered tick
source it dereferences the NULL tick pointer (no status is returned) instead
of returning Error — see the counterexample. -/
theorem C3_status_validation :
    (∀ tickSrc pin, ButtonTask tickSrc none pin = some (.BTN_ERROR, none, [])) ∧
    (∀ s, BTN_tick_variable_register none s = (.BTN_ERROR, s)) ∧
    (∀ v s, BTN_tick_variable_register (some v) s = (.BTN_OK, some v)) ∧
    (∀ gp gpin td tlp tr rl n, ButtonInitKey none gp gpin td tlp tr rl n = (.BTN_ERROR, none)) ∧
    (∀ k gpin td tlp tr rl n, ButtonInitKey (some k) none gpin td tlp tr rl n = (.BTN_ERROR, some k)) ∧
    (∀ m w, ButtonSetMultipleClick none m w = (.BTN_ERROR, none)) ∧
    (∀ cb, ButtonRegisterPressCallback none cb = (.BTN_ERROR, none)) ∧
    (∀ ms, ButtonSetDebounceTime none ms = (.BTN_ERROR, none)) ∧
    (∀ t k pin, ∃ k2 ev, ButtonTask (some t) (some k) pin = some (.BTN_OK, some k2, ev)) ∧
    (∃ k, ButtonTask none (some k) false = none) := by
  refine ⟨fun _ _ => rfl, fun _ => rfl, fun _ _ => rfl, fun _ _ _ _ _ _ _ => rfl,
          fun _ _ _ _ _ _ _ => rfl, fun _ _ => rfl, fun _ => rfl, fun _ => rfl,
          ButtonTask_total, ⟨c3Btn, rfl⟩⟩

/-- Combined-mode instance freshly detected in Idle at tick 0 (LastTick = 0)
and now sitting in Debounce; debounce 50 ms, long-press 500 ms. -/
def c5Btn : Button :=
  { zeroButton with
    State := .DEBOUNCE
    TimerDebounce := 50
    TimerLongPressed := 500
    TimerBetweenClick := 300
    MultipleClickMode := .BTN_MULTIPLE_CLICK_COMBINED_MODE
    ButtonPressed := true
    ButtonLongPressed := true }

/-- State of `c5Btn` right after the confirmed press at tick 50: note
`LastTick` is still 0 — the combined-mode debounce resolver does not refresh
it at confirmation. -/
def c5k1 : Button :=
  { c5Btn with State := .PRESSED, ClickCounterCycle := 1, ClickCounter := 1, LastClickTick := 50 }

/-- Counterexample to C5: in combined multi-click mode the long-press window
is not measured from the confirmed press.  The press is confirmed at tick 50
(Debounce→Pressed) with the pin held asserted, yet the evaluation at tick 500
— only 450 ms after the confirmed press, less than the 500 ms threshold —
already fires the long-press callback and transitions to Repeat. -/
theorem C5_counterexample_combined_early_fire :
    ButtonTask (some 50) (some c5Btn) false = some (.BTN_OK, some c5k1, []) ∧
    c5k1.LastTick = 0 ∧
    sub32 500 50 < c5Btn.TimerLongPressed ∧
    ButtonTask (some 500) (some c5k1) false =
      some (.BTN_OK, some { c5k1 with State := .REPEAT, LastTick := 500 },
            [.longPressed]) := by
  refine ⟨by decide, rfl, by decide, by decide⟩

/-- C5 (amended): in multi-click modes off and normal, the confirmed press
(Debounce→Pressed) records `LastTick = now`, and a Pressed-state evaluation
with the pin held asserted fires the long-press callback exactly when the
elapsed time since `LastTick` reaches `TimerLongPressed` — so holding
asserted for exactly `timer_long_press` ms after the confirmed press fires
it, transitioning to Repeat with `LastTick = now` — and fires nothing before
that threshold; a Repeat-state evaluation never fires it again.  In combined
mode the confirmed press leaves `LastTick` at the Idle-phase press-detection
time, so the window is measured from detection, up to `timer_debounce`
earlier than the claim states (see the counterexample). -/
theorem C5_long_press_threshold :
    (∀ (k : Button) (t : Nat),
      k.MultipleClickMode = .BTN_MULTIPLE_CLICK_OFF ∨
      k.MultipleClickMode = .BTN_MULTIPLE_CLICK_NORMAL_MODE →
      (confirmedClick k t).map (fun p => (p.1.LastTick, p.1.State)) =
        some (t, ButtonState_t.PRESSED)) ∧
    (∀ (k : Button) (u : Nat) (pin : Bool),
      k.State = .PRESSED → assertedSpec k.ReverseLogic pin →
      (sub32 u k.LastTick ≥ k.TimerLongPressed →
        ButtonTask (some u) (some k) pin =
          some (.BTN_OK, some { k with State := .REPEAT, LastTick := u },
                emit k.ButtonLongPressed .longPressed)) ∧
      (sub32 u k.LastTick < k.TimerLongPressed →
        ButtonTask (some u) (some k) pin = some (.BTN_OK, some k, []))) ∧
    (∀ (k : Button) (u : Nat) (pin : Bool),
      k.State = .REPEAT →
      ∃ k2 ev, ButtonTask (some u) (some k) pin = some (.BTN_OK, some k2, ev) ∧
        BtnEvent.longPressed ∉ ev) := by
  refine ⟨?_, ?_, ?_⟩
  · intro k t hm
    rcases hm with hm | hm <;>
      simp [confirmedClick, MultipleClickDebounce, hm, Option.bind] <;>
      split_ifs <;> simp
  · intro k u pin hs hA
    have hrc : ¬ (cTernary (cEq (ReadState pin) (cEq k.ReverseLogic 0))
        BTN_SET BTN_RESET ≠ 0) :=
      fun hcond => (releaseDetect_iff_not_asserted k.ReverseLogic pin).mp hcond hA
    constructor
    · intro hLP
      simp [ButtonTask, hs, ButtonPressedRoutine, Option.bind, hrc, hLP]
    · intro hLP
      simp [ButtonTask, hs, ButtonPressedRoutine, Option.bind, hrc, not_le.mpr hLP]
  · intro k u pin hs
    simp only [ButtonTask, hs, ButtonRepeatRoutine, multipleClikRepeat]
    simp [Option.bind, emit]
    split_ifs <;> exact ⟨_, _, rfl, by simp⟩

/-- Off-mode instance held asserted, confirmed press recorded at tick 50. -/
def c5n : Button :=
  { zeroButton with State := .PRESSED, LastTick := 50, TimerLongPressed := 500, ButtonLongPressed := true }

/-- Witness for the amended C5: at 500 ms after the recorded confirmation the
long-press fires and the state moves to Repeat; one tick earlier nothing
fires; the confirmation records the tick; and a Repeat-state evaluation never
fires long-press. -/
theorem C5_long_press_threshold_witness :
    ((confirmedClick c5n 100).map (fun p => (p.1.LastTick, p.1.State)) =
      some (100, ButtonState_t.PRESSED)) ∧
    (ButtonTask (some 550) (some c5n) false =
      some (.BTN_OK, some { c5n with State := .REPEAT, LastTick := 550 },
            emit c5n.ButtonLongPressed .longPressed)) ∧
    (ButtonTask (some 549) (some c5n) false = some (.BTN_OK, some c5n, [])) ∧
    (∃ k2 ev, ButtonTask (some 700) (some { c5n with State := .REPEAT }) false =
      some (.BTN_OK, some k2, ev) ∧ BtnEvent.longPressed ∉ ev) :=
  ⟨C5_long_press_threshold.1 c5n 100 (Or.inl rfl),
   (C5_long_press_threshold.2.1 c5n 550 false rfl (by decide)).1 (by decide),
   (C5_long_press_threshold.2.1 c5n 549 false rfl (by decide)).2 (by decide),
   C5_long_press_threshold.2.2 { c5n with State := .REPEAT } 700 false rfl⟩

/-- C6: with release-side debouncing enabled, a DebounceRelease-state
evaluation never fires any callback; before the release-debounce window
elapses the instance is unchanged (the excursion continues); once the window
elapses with the pin re-asserted (a bounce shorter than
`timer_release_debounce`, not a real release) the machine returns exactly to
`StateBeforeRelease`.  The last two conjuncts show the excursion entries: a
released pin in `Pressed` records `StateBeforeRelease = PRESSED` and starts
the window with no callback, and in `Repeat` records
`StateBeforeRelease = REPEAT` firing no release-class callback. -/
theorem C6_release_debounce_bounce_rejection :
    (∀ (k : Button) (t : Nat) (pin : Bool), k.State = .DEBOUNCE_RELEASE →
      ∃ k2, ButtonTask (some t) (some k) pin = some (.BTN_OK, some k2, [])) ∧
    (∀ (k : Button) (t : Nat) (pin : Bool), k.State = .DEBOUNCE_RELEASE →
      sub32 t k.LastTickSecondDebounce < k.TimerSecondDebounce →
      ButtonTask (some t) (some k) pin = some (.BTN_OK, some k, [])) ∧
    (∀ (k : Button) (t : Nat) (pin : Bool), k.State = .DEBOUNCE_RELEASE →
      sub32 t k.LastTickSecondDebounce ≥ k.TimerSecondDebounce →
      assertedSpec k.ReverseLogic pin →
      ButtonTask (some t) (some k) pin =
        some (.BTN_OK, some { k with State := k.StateBeforeRelease }, [])) ∧
    (∀ (k : Button) (t : Nat) (pin : Bool), k.State = .PRESSED →
      ¬ assertedSpec k.ReverseLogic pin →
      ButtonTask (some t) (some k) pin =
        some (.BTN_OK, some { k with StateBeforeRelease := .PRESSED, State := .DEBOUNCE_RELEASE, LastTickSecondDebounce := t }, [])) ∧
    (∀ (k : Button) (t : Nat) (pin : Bool), k.State = .REPEAT →
      ¬ assertedSpec k.ReverseLogic pin →
      ∃ k2 ev, ButtonTask (some t) (some k) pin = some (.BTN_OK, some k2, ev) ∧
        k2.State = .DEBOUNCE_RELEASE ∧ k2.StateBeforeRelease = .REPEAT ∧
        k2.LastTickSecondDebounce = t ∧
        BtnEvent.released ∉ ev ∧ BtnEvent.releasedAfterRepeat ∉ ev) := by
  refine ⟨?_, ?_, ?_, ?_, ?_⟩
  · intro k t pin hs
    simp only [ButtonTask, hs, ButtonDebounceReleaseRoutine]
    simp [Option.bind]
    split_ifs <;> exact ⟨_, rfl⟩
  · intro k t pin hs hlt
    simp [ButtonTask, hs, ButtonDebounceReleaseRoutine, Option.bind, not_le.mpr hlt]
  · intro k t pin hs hge hA
    have hcond := (reassertDetect_iff_asserted k.ReverseLogic pin).mpr hA
    simp [ButtonTask, hs, ButtonDebounceReleaseRoutine, Option.bind, hge, hcond]
  · intro k t pin hs hnA
    have hrel := (releaseDetect_iff_not_asserted k.ReverseLogic pin).mpr hnA
    simp [ButtonTask, hs, ButtonPressedRoutine, Option.bind, hrel]
  · intro k t pin hs hnA
    have hrel := (releaseDetect_iff_not_asserted k.ReverseLogic pin).mpr hnA
    simp only [ButtonTask, hs, ButtonRepeatRoutine, multipleClikRepeat]
    simp [Option.bind, hrel]
    split_ifs <;> exact ⟨_, _, rfl, rfl, rfl, rfl, by simp, by simp⟩

/-- Release-debounce excursion instance: pre-release state Pressed, 20 ms
release-debounce window started at tick 100. -/
def c6Btn : Button :=
  { zeroButton with State := .DEBOUNCE_RELEASE, StateBeforeRelease := .PRESSED, TimerSecondDebounce := 20, LastTickSecondDebounce := 100, ButtonRelease := true, ButtonReleaseAfterRepeat := true }

/-- Pressed-state instance for the excursion-entry conjunct. -/
def c6kP : Button := { zeroButton with State := .PRESSED, ButtonRelease := true }

/-- Repeat-state instance for the excursion-entry conjunct. -/
def c6kR : Button := { zeroButton with State := .REPEAT, ButtonPressed := true }

/-- Witness for C6: within the window nothing changes and nothing fires; at
the window end with the pin re-asserted the machine returns to Pressed; the
excursion entries from Pressed and Repeat record the pre-release state and
fire no release-class callback. -/
theorem C6_release_debounce_bounce_rejection_witness :
    (∃ k2, ButtonTask (some 110) (some c6Btn) true = some (.BTN_OK, some k2, [])) ∧
    (ButtonTask (some 110) (some c6Btn) true = some (.BTN_OK, some c6Btn, [])) ∧
    (ButtonTask (some 120) (some c6Btn) false =
      some (.BTN_OK, some { c6Btn with State := c6Btn.StateBeforeRelease }, [])) ∧
    (ButtonTask (some 5) (some c6kP) true =
      some (.BTN_OK, some { c6kP with StateBeforeRelease := .PRESSED, State := .DEBOUNCE_RELEASE, LastTickSecondDebounce := 5 }, [])) ∧
    (∃ k2 ev, ButtonTask (some 5) (some c6kR) true = some (.BTN_OK, some k2, ev) ∧
      k2.State = .DEBOUNCE_RELEASE ∧ k2.StateBeforeRelease = .REPEAT ∧
      k2.LastTickSecondDebounce = 5 ∧
      BtnEvent.released ∉ ev ∧ BtnEvent.releasedAfterRepeat ∉ ev) :=
  ⟨C6_release_debounce_bounce_rejection.1 c6Btn 110 true rfl,
   C6_release_debounce_bounce_rejection.2.1 c6Btn 110 true rfl (by decide),
   C6_release_debounce_bounce_rejection.2.2.1 c6Btn 120 false rfl (by decide) (by decide),
   C6_release_debounce_bounce_rejection.2.2.2.1 c6kP 5 true rfl (by decide),
   C6_release_debounce_bounce_rejection.2.2.2.2 c6kR 5 true rfl (by decide)⟩

/-- Shifting every stored timestamp of an instance by `d` modulo the tick
range: the wrapped counterpart of an instance whose history happened `d`
ticks earlier. -/
def shift32 (d : Nat) (k : Button) : Button :=
  { k with LastTick := (k.LastTick + d) % M32, LastClickTick := (k.LastClickTick + d) % M32, LastTickSecondDebounce := (k.LastTickSecondDebounce + d) % M32 }

@[simp] theorem shift32_LastTick (d : Nat) (k : Button) :
    (shift32 d k).LastTick = (k.LastTick + d) % M32 := rfl

@[simp] theorem shift32_LastClickTick (d : Nat) (k : Button) :
    (shift32 d k).LastClickTick = (k.LastClickTick + d) % M32 := rfl

@[simp] theorem shift32_LastTickSecondDebounce (d : Nat) (k : Button) :
    (shift32 d k).LastTickSecondDebounce = (k.LastTickSecondDebounce + d) % M32 := rfl

@[simp] theorem shift32_State (d : Nat) (k : Button) : (shift32 d k).State = k.State := rfl

@[simp] theorem shift32_GpioPort (d : Nat) (k : Button) : (shift32 d k).GpioPort = k.GpioPort := rfl

@[simp] theorem shift32_GpioPin (d : Nat) (k : Button) : (shift32 d k).GpioPin = k.GpioPin := rfl

@[simp] theorem shift32_TimerDebounce (d : Nat) (k : Button) : (shift32 d k).TimerDebounce = k.TimerDebounce := rfl

@[simp] theorem shift32_TimerLongPressed (d : Nat) (k : Button) : (shift32 d k).TimerLongPressed = k.TimerLongPressed := rfl

@[simp] theorem shift32_TimerRepeat (d : Nat) (k : Button) : (shift32 d k).TimerRepeat = k.TimerRepeat := rfl

@[simp] theorem shift32_ReverseLogic (d : Nat) (k : Button) : (shift32 d k).ReverseLogic = k.ReverseLogic := rfl

@[simp] theorem shift32_NumberBtn (d : Nat) (k : Button) : (shift32 d k).NumberBtn = k.NumberBtn := rfl

@[simp] theorem shift32_StateBeforeRelease (d : Nat) (k : Button) : (shift32 d k).StateBeforeRelease = k.StateBeforeRelease := rfl

@[simp] theorem shift32_TimerSecondDebounce (d : Nat) (k : Button) : (shift32 d k).TimerSecondDebounce = k.TimerSecondDebounce := rfl

@[simp] theorem shift32_ButtonPressed (d : Nat) (k : Button) : (shift32 d k).ButtonPressed = k.ButtonPressed := rfl

@[simp] theorem shift32_ButtonLongPressed (d : Nat) (k : Button) : (shift32 d k).ButtonLongPressed = k.ButtonLongPressed := rfl

@[simp] theorem shift32_ButtonRepeat (d : Nat) (k : Button) : (shift32 d k).ButtonRepeat = k.ButtonRepeat := rfl

@[simp] theorem shift32_ButtonRelease (d : Nat) (k : Button) : (shift32 d k).ButtonRelease = k.ButtonRelease := rfl

@[simp] theorem shift32_ButtonReleaseAfterRepeat (d : Nat) (k : Button) : (shift32 d k).ButtonReleaseAfterRepeat = k.ButtonReleaseAfterRepeat := rfl

@[simp] theorem shift32_ButtonDoubleClick (d : Nat) (k : Button) : (shift32 d k).ButtonDoubleClick = k.ButtonDoubleClick := rfl

@[simp] theorem shift32_ButtonTripleClick (d : Nat) (k : Button) : (shift32 d k).ButtonTripleClick = k.ButtonTripleClick := rfl

@[simp] theorem shift32_MultipleClickMode (d : Nat) (k : Button) : (shift32 d k).MultipleClickMode = k.MultipleClickMode := rfl

@[simp] theorem shift32_ClickCounter (d : Nat) (k : Button) : (shift32 d k).ClickCounter = k.ClickCounter := rfl

@[simp] theorem shift32_ClickCounterCycle (d : Nat) (k : Button) : (shift32 d k).ClickCounterCycle = k.ClickCounterCycle := rfl

@[simp] theorem shift32_CombinedModeRepeatPressEx (d : Nat) (k : Button) : (shift32 d k).CombinedModeRepeatPressEx = k.CombinedModeRepeatPressEx := rfl

@[simp] theorem shift32_TimerBetweenClick (d : Nat) (k : Button) : (shift32 d k).TimerBetweenClick = k.TimerBetweenClick := rfl

/-- Unsigned wraparound subtraction is invariant under shifting both
operands, the algebraic heart of tick-wraparound safety. -/
theorem sub32_shift (t x d : Nat) : sub32 ((t + d) % M32) ((x + d) % M32) = sub32 t x := by
  unfold sub32 M32
  omega

/-- The computed elapsed time equals the true elapsed time modulo the tick
range, for any starting tick (wrapped or not). -/
theorem sub32_elapsed (last d : Nat) : sub32 (last + d) last = d % M32 := by
  unfold sub32 M32
  omega

theorem MultipleClickDebounce_shift (d t : Nat) (k : Button) :
    MultipleClickDebounce (some ((t + d) % M32)) (shift32 d k) =
      (MultipleClickDebounce (some t) k).map (fun p => (shift32 d p.1, p.2)) := by
  simp only [MultipleClickDebounce, shift32_MultipleClickMode, shift32_ClickCounterCycle,
             shift32_LastClickTick, shift32_TimerBetweenClick, shift32_ClickCounter,
             shift32_ButtonPressed, shift32_ButtonDoubleClick, shift32_ButtonTripleClick,
             Option.bind, sub32_shift]
  split_ifs <;> simp [sub32_shift] <;> (try (split_ifs <;> simp_all)) <;> (try rfl)

theorem multipleClikIdle_shift (d t : Nat) (k : Button) :
    multipleClikIdle (some ((t + d) % M32)) (shift32 d k) =
      (multipleClikIdle (some t) k).map (fun p => (shift32 d p.1, p.2)) := by
  simp only [multipleClikIdle, shift32_MultipleClickMode, shift32_LastClickTick,
             shift32_TimerBetweenClick, shift32_ClickCounter, shift32_ButtonPressed,
             shift32_ButtonDoubleClick, shift32_ButtonTripleClick, Option.bind, sub32_shift]
  split_ifs <;> simp [sub32_shift] <;> (try (split_ifs <;> simp_all)) <;> (try rfl)

theorem multipleClikRepeat_shift (d : Nat) (k : Button) :
    multipleClikRepeat (shift32 d k) =
      (shift32 d (multipleClikRepeat k).1, (multipleClikRepeat k).2) := by
  simp only [multipleClikRepeat, shift32_ButtonPressed, shift32_CombinedModeRepeatPressEx]
  split_ifs <;> rfl

theorem ButtonIdleRoutine_shift (d t : Nat) (k : Button) (pin : Bool) :
    ButtonIdleRoutine (some ((t + d) % M32)) (shift32 d k) pin =
      (ButtonIdleRoutine (some t) k pin).map (fun p => (shift32 d p.1, p.2)) := by
  simp only [ButtonIdleRoutine, multipleClikIdle_shift]
  rcases h : multipleClikIdle (some t) k with _ | ⟨k2, ev⟩
  · simp
  · simp only [Option.map_some', Option.bind_eq_bind, Option.some_bind, shift32_ReverseLogic]
    split_ifs <;> simp_all <;> rfl

theorem ButtonDebounceRoutine_shift (d t : Nat) (k : Button) (pin : Bool) :
    ButtonDebounceRoutine (some ((t + d) % M32)) (shift32 d k) pin =
      (ButtonDebounceRoutine (some t) k pin).map (fun p => (shift32 d p.1, p.2)) := by
  simp only [ButtonDebounceRoutine, Option.bind_eq_bind, Option.some_bind,
             shift32_LastTick, shift32_TimerDebounce, shift32_ReverseLogic, sub32_shift]
  by_cases hd : sub32 t k.LastTick ≥ k.TimerDebounce
  · rcases h : MultipleClickDebounce (some t) k with _ | ⟨k2, ev⟩ <;>
      split_ifs <;>
      simp_all [MultipleClickDebounce_shift, Option.bind_eq_bind, Option.some_bind] <;>
      (try rfl)
  · split_ifs <;> simp_all <;> (try rfl)

theorem ButtonPressedRoutine_shift (d t : Nat) (k : Button) (pin : Bool) :
    ButtonPressedRoutine (some ((t + d) % M32)) (shift32 d k) pin =
      (ButtonPressedRoutine (some t) k pin).map (fun p => (shift32 d p.1, p.2)) := by
  simp only [ButtonPressedRoutine, Option.bind_eq_bind, Option.some_bind, shift32_LastTick,
             shift32_TimerLongPressed, shift32_ReverseLogic, shift32_State,
             shift32_ButtonLongPressed, sub32_shift]
  split_ifs <;> simp_all <;> (try rfl)

theorem ButtonRepeatRoutine_shift (d t : Nat) (k : Button) (pin : Bool) :
    ButtonRepeatRoutine (some ((t + d) % M32)) (shift32 d k) pin =
      (ButtonRepeatRoutine (some t) k pin).map (fun p => (shift32 d p.1, p.2)) := by
  simp only [ButtonRepeatRoutine, multipleClikRepeat_shift, Option.bind_eq_bind,
             Option.some_bind, shift32_LastTick, shift32_TimerRepeat, shift32_ReverseLogic,
             shift32_State, shift32_ButtonRepeat, sub32_shift]
  split_ifs <;> simp_all <;> (try rfl)

theorem ButtonDebounceReleaseRoutine_shift (d t : Nat) (k : Button) (pin : Bool) :
    ButtonDebounceReleaseRoutine (some ((t + d) % M32)) (shift32 d k) pin =
      (ButtonDebounceReleaseRoutine (some t) k pin).map (fun p => (shift32 d p.1, p.2)) := by
  simp only [ButtonDebounceReleaseRoutine, Option.bind_eq_bind, Option.some_bind,
             shift32_LastTickSecondDebounce, shift32_TimerSecondDebounce,
             shift32_ReverseLogic, shift32_StateBeforeRelease, sub32_shift]
  split_ifs <;> simp_all <;> (try rfl)

/-- C7: all elapsed-time tests are wraparound-safe.  First, the elapsed time
computed by `sub32` from any starting tick equals the true elapsed duration
modulo the tick range (so it is correct up to one full range, wrapped or
not).  Second, `sub32` is invariant under shifting both operands modulo the
range.  Third, the machine transitions identically in the wrapped and the
non-wrapped scenario: one evaluation call at tick `(t + d) mod 2^32` on an
instance whose stored timestamps are all shifted by `d` (in particular an
instance whose `last_tick` is near the maximum while the shifted current
tick has wrapped past zero) returns the same status, the same events, and
the shifted image of the same resulting instance. -/
theorem C7_tick_wraparound :
    (∀ last d, sub32 (last + d) last = d % M32) ∧
    (∀ t x d, sub32 ((t + d) % M32) ((x + d) % M32) = sub32 t x) ∧
    (∀ (d t : Nat) (k : Button) (pin : Bool),
      ButtonTask (some ((t + d) % M32)) (some (shift32 d k)) pin =
        (ButtonTask (some t) (some k) pin).map
          (fun r => (r.1, r.2.1.map (shift32 d), r.2.2))) := by
  refine ⟨sub32_elapsed, fun t x d => sub32_shift t x d, ?_⟩
  intro d t k pin
  cases hs : k.State <;> simp only [ButtonTask, shift32_State, hs]
  case IDLE =>
    rw [ButtonIdleRoutine_shift]
    rcases ButtonIdleRoutine (some t) k pin with _ | ⟨k2, ev⟩ <;> simp
  case DEBOUNCE =>
    rw [ButtonDebounceRoutine_shift]
    rcases ButtonDebounceRoutine (some t) k pin with _ | ⟨k2, ev⟩ <;> simp
  case PRESSED =>
    rw [ButtonPressedRoutine_shift]
    rcases ButtonPressedRoutine (some t) k pin with _ | ⟨k2, ev⟩ <;> simp
  case REPEAT =>
    rw [ButtonRepeatRoutine_shift]
    rcases ButtonRepeatRoutine (some t) k pin with _ | ⟨k2, ev⟩ <;> simp
  case DEBOUNCE_RELEASE =>
    rw [ButtonDebounceReleaseRoutine_shift]
    rcases ButtonDebounceReleaseRoutine (some t) k pin with _ | ⟨k2, ev⟩ <;> simp
  case RELEASE =>
    simp [ButtonReleaseRoutine] <;> rfl
  case RELEASE_AFTER_REPEAT =>
    simp [ButtonReleaseAfterRepeatRoutine] <;> rfl

theorem multipleClikIdle_State (t : Nat) (k : Button) (p : Button × List BtnEvent)
    (h : multipleClikIdle (some t) k = some p) : p.1.State = k.State := by
  unfold multipleClikIdle at h
  simp only [Option.bind_eq_bind, Option.some_bind] at h
  split_ifs at h <;> simp only [Option.some.injEq] at h <;> subst h <;> rfl

theorem MultipleClickDebounce_State (t : Nat) (k : Button) (p : Button × List BtnEvent)
    (h : MultipleClickDebounce (some t) k = some p) : p.1.State = k.State := by
  unfold MultipleClickDebounce at h
  simp only [Option.bind_eq_bind, Option.some_bind] at h
  split_ifs at h <;> simp only [Option.some.injEq] at h <;> subst h <;> rfl

/-- The direct-successor relation of the state machine: one evaluation call
either keeps the state or moves it across exactly one edge read off the
individual state routines.  In particular a call can never chain two edges
(e.g. Idle never reaches Pressed, and Release never skips past Idle, within
a single call). -/
def stepOnce (k k2 : Button) : Prop :=
  k2.State = k.State ∨
  (match k.State with
   | .IDLE => k2.State = .DEBOUNCE
   | .DEBOUNCE => k2.State = .PRESSED ∨ k2.State = .IDLE
   | .PRESSED => k2.State = .DEBOUNCE_RELEASE ∨ k2.State = .REPEAT
   | .REPEAT => k2.State = .DEBOUNCE_RELEASE
   | .DEBOUNCE_RELEASE => k2.State = k.StateBeforeRelease ∨ k2.State = .RELEASE ∨
       k2.State = .RELEASE_AFTER_REPEAT
   | .RELEASE => k2.State = .IDLE
   | .RELEASE_AFTER_REPEAT => k2.State = .IDLE)

/-- C8: one invocation of the evaluation entry point performs at most one
state transition: the resulting state is the current state or one direct
successor of it — the machine never chains through multiple states within a
single call. -/
theorem C8_single_transition_per_call (t : Nat) (k : Button) (pin : Bool)
    (st : BTN_operate_status) (k2 : Button) (ev : List BtnEvent)
    (h : ButtonTask (some t) (some k) pin = some (st, some k2, ev)) :
    stepOnce k k2 := by
  cases hs : k.State <;>
    simp only [ButtonTask, hs] at h
  case IDLE =>
    obtain ⟨⟨ki, evi⟩, hi⟩ := multipleClikIdle_some t k
    have hiS := multipleClikIdle_State t k _ hi
    unfold ButtonIdleRoutine at h
    rw [hi] at h
    simp only [Option.bind_eq_bind, Option.some_bind, Option.map_some',
               Option.some.injEq, Prod.mk.injEq] at h
    split_ifs at h
    all_goals try rcases h with ⟨-, rfl, -⟩
    all_goals simp_all [stepOnce]
  case DEBOUNCE =>
    obtain ⟨⟨kd, evd⟩, hd⟩ := MultipleClickDebounce_some t k
    unfold ButtonDebounceRoutine at h
    simp only [Option.bind_eq_bind, Option.some_bind] at h
    split_ifs at h
    all_goals try rw [hd] at h
    all_goals simp only [Option.bind_eq_bind, Option.some_bind, Option.map_some',
                         Option.some.injEq, Prod.mk.injEq] at h
    all_goals try rcases h with ⟨-, rfl, -⟩
    all_goals simp_all [stepOnce]
  case PRESSED =>
    unfold ButtonPressedRoutine at h
    simp only [Option.bind_eq_bind, Option.some_bind] at h
    split_ifs at h
    all_goals simp only [Option.map_some', Option.some.injEq, Prod.mk.injEq] at h
    all_goals try rcases h with ⟨-, rfl, -⟩
    all_goals simp_all [stepOnce]
  case REPEAT =>
    unfold ButtonRepeatRoutine multipleClikRepeat at h
    simp only [Option.bind_eq_bind, Option.some_bind] at h
    split_ifs at h
    all_goals simp only [Option.map_some', Option.some.injEq, Prod.mk.injEq] at h
    all_goals try rcases h with ⟨-, rfl, -⟩
    all_goals simp_all [stepOnce]
  case DEBOUNCE_RELEASE =>
    unfold ButtonDebounceReleaseRoutine at h
    simp only [Option.bind_eq_bind, Option.some_bind] at h
    split_ifs at h
    all_goals simp only [Option.map_some', Option.some.injEq, Prod.mk.injEq] at h
    all_goals try rcases h with ⟨-, rfl, -⟩
    all_goals simp_all [stepOnce]
  case RELEASE =>
    simp only [ButtonReleaseRoutine, Option.map_some', Option.some.injEq,
               Prod.mk.injEq] at h
    rcases h with ⟨-, rfl, -⟩
    simp [stepOnce, hs]
  case RELEASE_AFTER_REPEAT =>
    simp only [ButtonReleaseAfterRepeatRoutine, Option.map_some', Option.some.injEq,
               Prod.mk.injEq] at h
    rcases h with ⟨-, rfl, -⟩
    simp [stepOnce, hs]

/-- Witness for C8: a zero-initialized instance evaluated with the pin
asserted moves exactly one edge, Idle to Debounce. -/
theorem C8_single_transition_per_call_witness :
    stepOnce zeroButton { zeroButton with State := .DEBOUNCE, LastTick := 5 } :=
  C8_single_transition_per_call 5 zeroButton false .BTN_OK
    { zeroButton with State := .DEBOUNCE, LastTick := 5 } [] (by decide)

/-- C9: for every argument values, `ButtonInitKey` (and the defaults variant)
succeeds on non-NULL pointers and leaves the instance equal to the all-zero
instance overridden exactly on the explicitly assigned fields: state Idle,
pin identity, polarity, identifier, the three primary timings (explicit or
the compiled-in defaults 50/500/300), plus the release-debounce timer copied
from the debounce timing and the multi-click mode set to its zero member OFF.
In particular every callback slot, the click counter and both guard flags of
a freshly initialized instance are zero/unset, as are all timestamps. -/
theorem C9_init_zeroes_instance (k0 : Button) (p gpin td tlp tr rl n : Nat) :
    (ButtonInitKey (some k0) (some p) gpin td tlp tr rl n =
      (.BTN_OK, some { zeroButton with State := .IDLE, GpioPort := p, GpioPin := gpin, TimerDebounce := td, TimerLongPressed := tlp, TimerRepeat := tr, ReverseLogic := rl, NumberBtn := n, TimerSecondDebounce := td, MultipleClickMode := .BTN_MULTIPLE_CLICK_OFF })) ∧
    (ButtonInitKeyDefault (some k0) (some p) gpin rl n =
      (.BTN_OK, some { zeroButton with State := .IDLE, GpioPort := p, GpioPin := gpin, TimerDebounce := BTN_DEFAULT_TIME_DEBOUNCE, TimerLongPressed := BTN_DEFAULT_TIME_LONG_PRESS, TimerRepeat := BTN_DEFAULT_TIME_REPEAT, ReverseLogic := rl, NumberBtn := n, TimerSecondDebounce := BTN_DEFAULT_TIME_DEBOUNCE, MultipleClickMode := .BTN_MULTIPLE_CLICK_OFF })) ∧
    (∀ k2, ButtonInitKey (some k0) (some p) gpin td tlp tr rl n = (.BTN_OK, some k2) →
      k2.ButtonPressed = false ∧ k2.ButtonLongPressed = false ∧
      k2.ButtonRepeat = false ∧ k2.ButtonRelease = false ∧
      k2.ButtonReleaseAfterRepeat = false ∧ k2.ButtonDoubleClick = false ∧
      k2.ButtonTripleClick = false ∧ k2.ClickCounter = 0 ∧
      k2.ClickCounterCycle = 0 ∧ k2.CombinedModeRepeatPressEx = 0 ∧
      k2.LastTick = 0 ∧ k2.LastClickTick = 0 ∧ k2.LastTickSecondDebounce = 0 ∧
      k2.TimerBetweenClick = 0 ∧ k2.State = .IDLE) := by
  refine ⟨rfl, rfl, ?_⟩
  intro k2 h
  simp only [ButtonInitKey, Prod.mk.injEq, Option.some.injEq] at h
  obtain ⟨-, rfl⟩ := h
  exact ⟨rfl, rfl, rfl, rfl, rfl, rfl, rfl, rfl, rfl, rfl, rfl, rfl, rfl, rfl, rfl⟩

/-- Witness for C9 at concrete arguments. -/
theorem C9_init_zeroes_instance_witness :
    (ButtonInitKey (some c1Btn) (some 7) 3 50 500 300 1 2 =
      (.BTN_OK, some { zeroButton with State := .IDLE, GpioPort := 7, GpioPin := 3, TimerDebounce := 50, TimerLongPressed := 500, TimerRepeat := 300, ReverseLogic := 1, NumberBtn := 2, TimerSecondDebounce := 50, MultipleClickMode := .BTN_MULTIPLE_CLICK_OFF })) ∧
    (ButtonInitKeyDefault (some c1Btn) (some 7) 3 1 2 =
      (.BTN_OK, some { zeroButton with State := .IDLE, GpioPort := 7, GpioPin := 3, TimerDebounce := BTN_DEFAULT_TIME_DEBOUNCE, TimerLongPressed := BTN_DEFAULT_TIME_LONG_PRESS, TimerRepeat := BTN_DEFAULT_TIME_REPEAT, ReverseLogic := 1, NumberBtn := 2, TimerSecondDebounce := BTN_DEFAULT_TIME_DEBOUNCE, MultipleClickMode := .BTN_MULTIPLE_CLICK_OFF })) ∧
    (∀ k2, ButtonInitKey (some c1Btn) (some 7) 3 50 500 300 1 2 = (.BTN_OK, some k2) →
      k2.ButtonPressed = false ∧ k2.ButtonLongPressed = false ∧
      k2.ButtonRepeat = false ∧ k2.ButtonRelease = false ∧
      k2.ButtonReleaseAfterRepeat = false ∧ k2.ButtonDoubleClick = false ∧
      k2.ButtonTripleClick = false ∧ k2.ClickCounter = 0 ∧
      k2.ClickCounterCycle = 0 ∧ k2.CombinedModeRepeatPressEx = 0 ∧
      k2.LastTick = 0 ∧ k2.LastClickTick = 0 ∧ k2.LastTickSecondDebounce = 0 ∧
      k2.TimerBetweenClick = 0 ∧ k2.State = .IDLE) :=
  C9_init_zeroes_instance c1Btn 7 3 50 500 300 1 2

theorem multipleClikIdle_not_combined (tickSrc : Option Nat) (k : Button)
    (hm : k.MultipleClickMode ≠ .BTN_MULTIPLE_CLICK_COMBINED_MODE) :
    multipleClikIdle tickSrc k = some (k, []) := by
  simp [multipleClikIdle, hm]

theorem MultipleClickDebounce_flag_mode (t : Nat) (k : Button)
    (p : Button × List BtnEvent) (h : MultipleClickDebounce (some t) k = some p) :
    p.1.CombinedModeRepeatPressEx = k.CombinedModeRepeatPressEx ∧
    p.1.MultipleClickMode = k.MultipleClickMode := by
  unfold MultipleClickDebounce at h
  simp only [Option.bind_eq_bind, Option.some_bind] at h
  split_ifs at h <;> simp only [Option.some.injEq] at h <;> subst h <;>
    exact ⟨rfl, rfl⟩

/-- C10: the repeat-phase multi-click resolver runs on every Repeat-state
evaluation regardless of the multi-click mode.  First conjunct: for an
instance entering `Repeat` with the guard flag `CombinedModeRepeatPressEx`
clear and a registered press callback — e.g. a zero-initialized instance
with mode off or normal — the first Repeat-state evaluation fires the press
callback one extra time (first event of the call) and resets
`ClickCounter` to 0, setting the guard flag.  Second conjunct: in modes off
and normal the guard flag, once set, is preserved by every evaluation call
(it is cleared only by the combined-mode idle-phase resolver), so the extra
press fires at most once over the instance's lifetime.  Third conjunct: with
the guard flag set the repeat-phase resolver fires nothing.  Fourth
conjunct: outside combined mode the idle-phase resolver never clears the
flag (it is the identity). -/
theorem C10_repeat_resolver_extra_press :
    (∀ (k : Button) (t : Nat) (pin : Bool), k.State = .REPEAT →
      k.CombinedModeRepeatPressEx = 0 → k.ButtonPressed = true →
      ∃ k2 ev, ButtonTask (some t) (some k) pin = some (.BTN_OK, some k2, .pressed :: ev) ∧
        k2.ClickCounter = 0 ∧ k2.CombinedModeRepeatPressEx = 1) ∧
    (∀ (k : Button) (t : Nat) (pin : Bool) (st : BTN_operate_status)
        (k2 : Button) (ev : List BtnEvent),
      (k.MultipleClickMode = .BTN_MULTIPLE_CLICK_OFF ∨
       k.MultipleClickMode = .BTN_MULTIPLE_CLICK_NORMAL_MODE) →
      k.CombinedModeRepeatPressEx = 1 →
      ButtonTask (some t) (some k) pin = some (st, some k2, ev) →
      k2.CombinedModeRepeatPressEx = 1 ∧ k2.MultipleClickMode = k.MultipleClickMode) ∧
    (∀ k : Button, k.CombinedModeRepeatPressEx ≠ 0 →
      multipleClikRepeat k = ({ k with ClickCounter := 0 }, [])) ∧
    (∀ (tickSrc : Option Nat) (k : Button),
      k.MultipleClickMode ≠ .BTN_MULTIPLE_CLICK_COMBINED_MODE →
      multipleClikIdle tickSrc k = some (k, [])) := by
  refine ⟨?_, ?_, ?_, multipleClikIdle_not_combined⟩
  · intro k t pin hs hflag hp
    simp only [ButtonTask, hs, ButtonRepeatRoutine, multipleClikRepeat, hflag, hp]
    simp [Option.bind, emit]
    split_ifs <;> exact ⟨_, ⟨_, rfl⟩, rfl, rfl⟩
  · intro k t pin st k2 ev hmode hflag h
    have hnc : k.MultipleClickMode ≠ .BTN_MULTIPLE_CLICK_COMBINED_MODE := by
      rcases hmode with hm | hm <;> simp [hm]
    cases hs : k.State <;> simp only [ButtonTask, hs] at h
    case IDLE =>
      unfold ButtonIdleRoutine at h
      rw [multipleClikIdle_not_combined (some t) k hnc] at h
      simp only [Option.bind_eq_bind, Option.some_bind, Option.map_some',
                 Option.some.injEq, Prod.mk.injEq] at h
      split_ifs at h
      all_goals try rcases h with ⟨-, rfl, -⟩
      all_goals simp_all
    case DEBOUNCE =>
      obtain ⟨⟨kd, evd⟩, hd⟩ := MultipleClickDebounce_some t k
      obtain ⟨hdf, hdm⟩ := MultipleClickDebounce_flag_mode t k _ hd
      unfold ButtonDebounceRoutine at h
      simp only [Option.bind_eq_bind, Option.some_bind] at h
      split_ifs at h
      all_goals try rw [hd] at h
      all_goals simp only [Option.bind_eq_bind, Option.some_bind, Option.map_some',
                           Option.some.injEq, Prod.mk.injEq] at h
      all_goals try rcases h with ⟨-, rfl, -⟩
      all_goals simp_all
    case PRESSED =>
      unfold ButtonPressedRoutine at h
      simp only [Option.bind_eq_bind, Option.some_bind] at h
      split_ifs at h
      all_goals simp only [Option.map_some', Option.some.injEq, Prod.mk.injEq] at h
      all_goals try rcases h with ⟨-, rfl, -⟩
      all_goals simp_all
    case REPEAT =>
      unfold ButtonRepeatRoutine multipleClikRepeat at h
      simp only [hflag, hs] at h
      simp only [Option.bind_eq_bind, Option.some_bind] at h
      split_ifs at h
      all_goals simp only [Option.map_some', Option.some.injEq, Prod.mk.injEq] at h
      all_goals try rcases h with ⟨-, rfl, -⟩
      all_goals simp_all
    case DEBOUNCE_RELEASE =>
      unfold ButtonDebounceReleaseRoutine at h
      simp only [Option.bind_eq_bind, Option.some_bind] at h
      split_ifs at h
      all_goals simp only [Option.map_some', Option.some.injEq, Prod.mk.injEq] at h
      all_goals try rcases h with ⟨-, rfl, -⟩
      all_goals simp_all
    case RELEASE =>
      simp only [ButtonReleaseRoutine, Option.map_some', Option.some.injEq,
                 Prod.mk.injEq] at h
      rcases h with ⟨-, rfl, -⟩
      simp_all
    case RELEASE_AFTER_REPEAT =>
      simp only [ButtonReleaseAfterRepeatRoutine, Option.map_some', Option.some.injEq,
                 Prod.mk.injEq] at h
      rcases h with ⟨-, rfl, -⟩
      simp_all
  · intro k hflag
    simp [multipleClikRepeat, hflag]

/-- Zero-initialized off-mode instance sitting in Repeat with the guard flag
clear. -/
def c10Btn : Button :=
  { zeroButton with State := .REPEAT, ButtonPressed := true, TimerRepeat := 300 }

/-- The same instance after its first Repeat evaluation set the guard flag. -/
def c10f : Button := { c10Btn with CombinedModeRepeatPressEx := 1 }

/-- Witness for C10: the first Repeat evaluation of the zero-initialized
off-mode instance fires the extra press; with the flag set an evaluation
preserves it; the guarded resolver fires nothing; and the off-mode idle
resolver leaves the instance unchanged. -/
theorem C10_repeat_resolver_extra_press_witness :
    (∃ k2 ev, ButtonTask (some 10) (some c10Btn) false =
      some (.BTN_OK, some k2, .pressed :: ev) ∧
      k2.ClickCounter = 0 ∧ k2.CombinedModeRepeatPressEx = 1) ∧
    ({ c10f with ClickCounter := 0 }.CombinedModeRepeatPressEx = 1 ∧
     { c10f with ClickCounter := 0 }.MultipleClickMode = c10f.MultipleClickMode) ∧
    (multipleClikRepeat c10f = ({ c10f with ClickCounter := 0 }, [])) ∧
    (multipleClikIdle (some 5) c10Btn = some (c10Btn, [])) :=
  ⟨C10_repeat_resolver_extra_press.1 c10Btn 10 false rfl rfl rfl,
   C10_repeat_resolver_extra_press.2.1 c10f 10 false .BTN_OK
     { c10f with ClickCounter := 0 } [] (Or.inl rfl) rfl (by decide),
   C10_repeat_resolver_extra_press.2.2.1 c10f (by decide),
   C10_repeat_resolver_extra_press.2.2.2 (some 5) c10Btn (by decide)⟩
